import Mathlib

/-!
Verification development for the replay & analytics engine of the GR-Analytics
telemetry server (src/server/server.py).

The engine is the body of the `while True` loop in `run_race` (lines 473-892),
together with the pure helpers `safe_float`, `safe_int`, `get_current_sector`
and the tire/geofence/statistics logic embedded in the loop.  The loop body is
modelled as a function `tick` from a session state (`RaceState`) plus one tick
of oracle input (`TickIn`) to either a Python exception (`PyErr`) or the next
state and the emitted packet.  Numbers are exact rationals; the wall clock
(`time.time()`), and the haversine distance to the start point (trigonometric,
hence irrational) are supplied as per-tick oracle inputs.  Python float
truthiness (`if x:` is false for `None` and `0.0`) is modelled by `truthyQ`.
A Python local variable that may be read before its first assignment
(`lap_duration_used`) is modelled as `Option (Option ℚ)`: `none` means
"not yet assigned", and reading it then raises `PyErr.unboundLocal`, exactly
as CPython raises `UnboundLocalError`.

A second, smaller model (`normalizeTick`, over `PyFloat`) re-embeds the sample
normalizer (lines 485-604) at IEEE-float granularity (`nan`, `+inf`, `-inf`
as distinguished values) in order to settle the finiteness claim C5, which is
about NaN/infinity propagation and hence invisible at rational granularity.

Blocks of the loop that no claim touches are omitted from the model and are
marked as such where they would appear: the alert-message list (lines 704-746
and the alert strings generally; only the single coaching tip, lines 832-847,
is modelled, as an inductive `Tip` rather than message strings), the live
sector-timing block (lines 655-686) and the best-sector recomputation block
(lines 795-830), both of which mutate only sector bookkeeping and the
`best_sectors` insight, and the string formatting helpers (`fmt_lap_time`).
-/

set_option maxRecDepth 20000

namespace GR

/-- Python float truthiness for an optional number: `None` and `0.0` are
falsy, every other value is truthy. -/
def truthyQ : Option ℚ → Bool
  | none => false
  | some q => decide (q ≠ 0)

/-- `int(f)` for a Python float: truncation toward zero. -/
def pyInt (q : ℚ) : ℤ := if q < 0 then ⌈q⌉ else ⌊q⌋

/-- `round(x, 2)`: rounding to two decimals, modelled as exact rational
rounding of `100 x` (CPython rounds the nearest binary double; the tie-breaking
detail is immaterial to every claim). -/
def round2 (q : ℚ) : ℚ := (round (q * 100) : ℤ) / 100

/-- Python `l[-n:]`: the most recent `n` entries of a list. -/
def lastN {α : Type} (n : ℕ) (l : List α) : List α := l.drop (l.length - n)

/-- Python `min(l, default=None)`. -/
def listMin : List ℚ → Option ℚ
  | [] => none
  | x :: xs =>
    match listMin xs with
    | none => some x
    | some m => some (min x m)

/-- Population variance of a list; `np.std` (line 771) is its square root.
The square root is irrational, so the model stores the variance; every claim
uses only whether the consistency metric is defined, never its value. -/
def listVar (l : List ℚ) : ℚ :=
  let n : ℚ := l.length
  let m := l.sum / n
  (l.map fun x => (x - m) ^ 2).sum / n

/-- One weather row (lines 372-380): all keys always present. -/
structure Weather where
  temp_c : ℚ
  track_temp_c : ℚ
  humidity : ℤ
  wind_kph : ℚ
  wind_dir : ℚ
  rain : ℤ
deriving DecidableEq, Repr

/-- One pivoted telemetry row as consumed by the loop body.  Each field is
`none` when the column is absent (or holds NaN, which `safe_float`/`safe_int`
map to the same default as absence at rational granularity):
`speed` collapses the alias chain of line 486-489
(speed/Speed/SPEED/speed_kmh/speed_mps), `rpm` the chain RPM/nmot
(lines 516, 571), `brakeDirect` the chain of lines 524-546 before the
pbrake fallback, `gear` the chain Gear/gear, `throttle` Throttle/aps,
`accX` accx_can/lat_g, `accY` accy_can/long_g, `lat`/`long` the VBOX/GPS
columns of lines 579-586.  `timestamp` is `pd.to_datetime` of the
timestamp cell, in seconds, `none` when missing or unparsable (lines
496-502). -/
structure Sample where
  timestamp : Option ℚ
  speed : Option ℚ
  lapValue : Option ℤ
  rpm : Option ℚ
  brakeDirect : Option ℚ
  pbrakeF : Option ℚ
  pbrakeR : Option ℚ
  accX : Option ℚ
  accY : Option ℚ
  gear : Option ℚ
  throttle : Option ℚ
  lat : Option ℚ
  long : Option ℚ
deriving DecidableEq, Repr

/-- A telemetry row with every column absent. -/
def sampleEmpty : Sample :=
  ⟨none, none, none, none, none, none, none, none, none, none, none, none, none⟩

/-- The four virtual tires (lines 433-438). -/
structure TireSet where
  fl : ℚ
  fr : ℚ
  rl : ℚ
  rr : ℚ
deriving DecidableEq, Repr

/-- One entry of `lap_times_history` / `session_insights["lap_times"]`.
`seconds` is optional because line 762 stores `lap_duration_used`, which can
be `None`; `provisional` is the flag of line 690 (absent key = `false`). -/
structure LapTimeEntry where
  lap : ℤ
  seconds : Option ℚ
  provisional : Bool
deriving DecidableEq, Repr

/-- The claim-relevant fields of the `session_insights` dict as reset at
lines 419-428 and updated at 691 and 775-786.  `best_sectors` and
`pit_count` are omitted: no claim touches them. -/
structure Insights where
  best_lap_seconds : Option ℚ
  avg_lap_seconds : Option ℚ
  latest_vs_best : Option ℚ
  top_speed_kph : Option ℚ
  lap_times : List LapTimeEntry
  consistency_var : Option ℚ
deriving DecidableEq, Repr

/-- The coaching tip of lines 832-843, as an inductive rather than the
message strings (the tip text carries no claim content beyond identity). -/
inductive Tip where
  | blend
  | corner
  | tire
  | lapDone (lap : ℤ)
deriving DecidableEq, Repr

/-- The numeric/claim-relevant fields of the per-tick packet (lines 588-604
plus the later mutations at 652, 847, 881-886).  The `timestamp` string and
the `alerts` list are omitted: no claim depends on them (the single
`coaching_tip` is kept). -/
structure Packet where
  speed : ℚ
  rpm : ℚ
  gear : ℤ
  throttle : ℚ
  brake : ℚ
  g_lat : ℚ
  g_long : ℚ
  lat : ℚ
  long : ℚ
  tire_health : ℚ
  tire_healths : TireSet
  lap : ℤ
  total_laps : ℤ
  weather : Option Weather
  lap_time_sec : Option ℚ
  coaching_tip : Option Tip
deriving DecidableEq, Repr

/-- Session-independent configuration: the loaded dataset and module-level
values fixed before `run_race` starts.  `analysis` is `analysis_lap_map`
restricted to its `"lap"` entry (lap number ↦ authoritative lap seconds,
`some none` when the key exists with value `None`); `hasStart` is the
truthiness of `start_point` (always true after loading, lines 253-256, but
kept as configuration). -/
structure Config where
  telemetry : List Sample
  weatherRows : List Weather
  analysis : List (ℤ × Option ℚ)
  totalLaps : ℤ
  lapStartValue : ℤ
  hasStart : Bool
deriving DecidableEq, Repr

/-- `analysis_lap_map.get(k, {}).get("lap")` (line 852). -/
def lookupAnalysis (a : List (ℤ × Option ℚ)) (k : ℤ) : Option ℚ :=
  match a.lookup k with
  | some v => v
  | none => none

/-- Python exceptions the loop body can raise. -/
inductive PyErr where
  | unboundLocal
  | typeError
deriving DecidableEq, Repr

instance {ε α : Type} [DecidableEq ε] [DecidableEq α] : DecidableEq (Except ε α) := fun x y =>
  match x, y with
  | .error a, .error b =>
    if h : a = b then .isTrue (congrArg Except.error h)
    else .isFalse fun hc => h (Except.error.inj hc)
  | .ok a, .ok b =>
    if h : a = b then .isTrue (congrArg Except.ok h)
    else .isFalse fun hc => h (Except.ok.inj hc)
  | .error _, .ok _ => .isFalse fun hc => Except.noConfusion hc
  | .ok _, .error _ => .isFalse fun hc => Except.noConfusion hc

/-- Per-tick oracle input: `now` is `time.time()` for this iteration (the few
calls within one iteration are close enough to be one value for every claim),
`dist` is the haversine distance (line 639) from the packet position to the
start point, and `sinT`/`cosT` are `math.sin(t)`/`math.cos(t)` of
`build_sim_packet` (trigonometry of the wall clock, supplied as input). -/
structure TickIn where
  now : ℚ
  dist : ℚ
  sinT : ℚ
  cosT : ℚ
deriving DecidableEq, Repr

/-- The mutable session state of `run_race` (locals of lines 414-471 that
survive across iterations, plus the module globals it reads and writes).
`lap_duration_used` is `none` until line 854/856 first assigns it; reading it
before that (line 762) raises `UnboundLocalError`. -/
structure RaceState where
  index : ℕ
  tires : TireSet
  tire_health : ℚ
  current_lap : ℤ
  sim_lap_start : ℚ
  last_speed : ℚ
  last_rpm : ℚ
  last_cross_time : ℚ
  prev_cross_time : Option ℚ
  last_lap_duration : Option ℚ
  session_best_speed : ℚ
  near_start : Bool
  weather_snapshot : Option Weather
  lap_timer_start : ℚ
  top_speed_start_lap : ℤ
  stats_start_lap : ℤ
  last_lap_value : Option ℤ
  last_lap_timestamp : Option ℚ
  session_best_lap : Option ℚ
  lap_durations : List ℚ
  lap_times_history : List LapTimeEntry
  lap_duration_records : List (ℤ × Option ℚ)
  insights : Insights
  lap_duration_used : Option (Option ℚ)
  weather_idx : ℕ
  last_weather_sent : Option Weather
  last_lap_elapsed_emit : ℚ
deriving DecidableEq, Repr

/-- The per-wheel wear step of lines 557-567 (also 610-622 in sim mode):
`brake_load = brake * 0.01`, `corner_load = |acc_x| * 0.02`; the loaded side
(front plus 0.9-weighted rear) loses `corner_load`, then every wheel loses
`brake_load * 0.25`, each write clamped below by 0. -/
def tireStep (t : TireSet) (brake accX : ℚ) : TireSet :=
  let brake_load := brake * 0.01
  let corner_load := |accX| * 0.02
  let t1 :=
    if 0 ≤ accX then
      { t with fl := max 0 (t.fl - corner_load), rl := max 0 (t.rl - corner_load * 0.9) }
    else
      { t with fr := max 0 (t.fr - corner_load), rr := max 0 (t.rr - corner_load * 0.9) }
  { fl := max 0 (t1.fl - brake_load * 0.25)
    fr := max 0 (t1.fr - brake_load * 0.25)
    rl := max 0 (t1.rl - brake_load * 0.25)
    rr := max 0 (t1.rr - brake_load * 0.25) }

/-- `sum(tires.values()) / 4.0` (lines 568, 623). -/
def tireMean (t : TireSet) : ℚ := (t.fl + t.fr + t.rl + t.rr) / 4

/-- The geofence lap-crossing state (locals `near_start`, `last_cross_time`,
`prev_cross_time`). -/
structure GeoState where
  near_start : Bool
  last_cross_time : ℚ
  prev_cross_time : Option ℚ
deriving DecidableEq, Repr

/-- Lines 638-647: a crossing is declared when `dist < 15`, the detector is
not already near the start, and more than 5 s have passed since the last
crossing; `near_start` is cleared only above 25 m.  Returns the new state and
whether `lap_crossed` was set this tick. -/
def geoStep (g : GeoState) (dist now : ℚ) : GeoState × Bool :=
  if dist < 15 ∧ g.near_start = false ∧ 5 < now - g.last_cross_time then
    ({ near_start := true
       last_cross_time := now
       prev_cross_time := if g.last_cross_time ≠ 0 then some g.last_cross_time else none }, true)
  else if 25 < dist then ({ g with near_start := false }, false)
  else (g, false)

/-- The coaching-tip priority chain of lines 832-841, first match wins:
blended brake-and-throttle, mid-corner speed carry, tire health, then
lap-finished-without-a-timed-duration. -/
def coachingTip (brake throttle g_lat speed tire_health : ℚ)
    (lap_finished : Bool) (lap_duration_this : Option ℚ) (current_lap : ℤ) : Option Tip :=
  if 50 < brake ∧ 30 < throttle then some .blend
  else if 1.2 < |g_lat| ∧ speed < 80 then some .corner
  else if tire_health < 85 then some .tire
  else if lap_finished = true ∧ truthyQ lap_duration_this = false then some (.lapDone current_lap)
  else none

/-- Line 886: `packet.get("weather") or last_weather_sent` (a weather dict is
always truthy, `None` is not). -/
def orW (pw ls : Option Weather) : Option Weather :=
  match pw with
  | some w => some w
  | none => ls

/-- The weather damping of lines 870-886 as a function of the (already
advanced) snapshot, the last dispatched snapshot and the weather already in
the packet.  Returns the new `last_weather_sent` and the packet's final
weather; each arm ends with the line-886 refill `orW`. -/
def weatherDamp (snap lastSent pw : Option Weather) : Option Weather × Option Weather :=
  match snap, lastSent with
  | some ws, some lw =>
    if |ws.temp_c - lw.temp_c| < 1 ∧ |ws.track_temp_c - lw.track_temp_c| < 1 then
      (some lw, orW (some lw) (some lw))
    else (some ws, orW pw (some ws))
  | some ws, none => (some ws, orW pw (some ws))
  | none, l => (l, orW pw l)

/-- Lines 524-552: the brake chain `safe_float` default falls back to
`max(pbrake_f, pbrake_r)`, and a value above 100 is treated as raw pressure
and rescaled against 1500. -/
def resolveBrake (row : Sample) : ℚ :=
  let brake0 := row.brakeDirect.getD (max (row.pbrakeF.getD 0) (row.pbrakeR.getD 0))
  if 100 < brake0 then min 100 (brake0 / 1500 * 100) else brake0

/-- Output of the sample phase of one tick: the state after lines 482-632
(cursor advance, normalization, tire wear, categorical lap transition) plus
the packet as first assembled, and the tick-local flags. -/
structure SampleOut where
  st : RaceState
  packet : Packet
  lap_crossed_data : Bool
  lap_duration_data : Option ℚ
  reached_end : Bool
  lap_finished_early : Bool
deriving Repr

/-- Lines 482-632.  Data branch: resolve fields through `safe_float` defaults
and carry-over smoothing, detect a categorical `lap_value` increase (with the
inter-sample timestamp difference as its duration), apply tire wear, build
the packet, advance the cursor.  Sim branch (`build_sim_packet`, lines
609-632): synthetic waveform sample at the fixed position, tire wear with
brake 0, and the 90-second wall-clock lap flag (`lap_finished`, line 631,
which only the tip chain observes — line 849 overwrites it). -/
def samplePhase (cfg : Config) (st : RaceState) (inp : TickIn) : SampleOut :=
  if h : st.index < cfg.telemetry.length then
    let row := cfg.telemetry.get ⟨st.index, h⟩
    let raw_speed0 := row.speed.getD 0
    let lap_val0 := row.lapValue.getD st.current_lap
    let lap_val := if lap_val0 ≤ 0 then st.current_lap else lap_val0
    let ts_dt := row.timestamp
    let llv0 := st.last_lap_value.getD lap_val
    let llt0 := if st.last_lap_value.isSome then st.last_lap_timestamp else ts_dt
    let lap_crossed_data := ts_dt.isSome && decide (llv0 < lap_val)
    let lap_duration_data :=
      if lap_crossed_data then
        match ts_dt, llt0 with
        | some t, some t0 => some (t - t0)
        | _, _ => none
      else none
    let llv1 := if lap_crossed_data then some lap_val else some llv0
    let llt1 := if lap_crossed_data then ts_dt else llt0
    let current_lap := max st.current_lap lap_val
    let rpm_hint := row.rpm.getD 0
    let raw_speed1 := if raw_speed0 ≤ 0 ∧ 5 < st.last_speed then st.last_speed else raw_speed0
    let raw_speed2 :=
      if raw_speed1 ≤ 0 ∧ 500 < rpm_hint then max 8 (rpm_hint / 80) else raw_speed1
    let speed := if st.last_speed ≤ 0 then raw_speed2 else 0.97 * raw_speed2 + 0.03 * st.last_speed
    let brake := resolveBrake row
    let acc_x := row.accX.getD 0
    let acc_y := row.accY.getD 0
    let tires := tireStep st.tires brake acc_x
    let tire_health := round2 (tireMean tires)
    let last_speed := max speed 0
    let raw_rpm0 := row.rpm.getD 0
    let raw_rpm := if raw_rpm0 ≤ 100 ∧ 0 < st.last_rpm then st.last_rpm else raw_rpm0
    let rpm_val := if st.last_rpm ≤ 0 then raw_rpm else 0.95 * raw_rpm + 0.05 * st.last_rpm
    let last_rpm := max rpm_val 0
    let lat_val := row.lat.getD 33.532
    let long_val := row.long.getD (-86.619)
    let packet : Packet :=
      { speed := speed
        rpm := rpm_val
        gear := pyInt (row.gear.getD 0)
        throttle := row.throttle.getD 0
        brake := brake
        g_lat := acc_x
        g_long := acc_y
        lat := lat_val
        long := long_val
        tire_health := tire_health
        tire_healths := tires
        lap := current_lap
        total_laps := cfg.totalLaps
        weather := st.weather_snapshot
        lap_time_sec := none
        coaching_tip := none }
    let index := st.index + 1
    { st := { st with
        index := index
        tires := tires
        tire_health := tire_health
        current_lap := current_lap
        last_speed := last_speed
        last_rpm := last_rpm
        last_lap_value := llv1
        last_lap_timestamp := llt1 }
      packet := packet
      lap_crossed_data := lap_crossed_data
      lap_duration_data := lap_duration_data
      reached_end := decide (cfg.telemetry.length ≤ index)
      lap_finished_early := false }
  else
    let speed := 140 + 40 * inp.sinT
    let rpm := 5000 + 1500 * inp.sinT
    let g_lat := inp.sinT
    let g_long := inp.cosT
    let tires := tireStep st.tires 0 g_lat
    let tire_health := round2 (tireMean tires)
    let packet : Packet :=
      { speed := speed
        rpm := rpm
        gear := 4
        throttle := 80
        brake := 0
        g_lat := g_lat
        g_long := g_long
        lat := 33.532
        long := -86.619
        tire_health := tire_health
        tire_healths := tires
        lap := st.current_lap
        total_laps := cfg.totalLaps
        weather := st.weather_snapshot
        lap_time_sec := none
        coaching_tip := none }
    let fin := decide (90 < inp.now - st.sim_lap_start)
    { st := { st with
        tires := tires
        tire_health := tire_health
        sim_lap_start := if fin then inp.now else st.sim_lap_start }
      packet := packet
      lap_crossed_data := false
      lap_duration_data := none
      reached_end := false
      lap_finished_early := fin }

/-- Lines 752-753: `if session_best_lap is None or d < session_best_lap`. -/
def bestOf (old : Option ℚ) (d : ℚ) : Option ℚ :=
  match old with
  | none => some d
  | some b => if d < b then some d else some b

/-- Line 762 reads the local `lap_duration_used`; before its first assignment
(lines 854/856 of a previous iteration) CPython raises `UnboundLocalError`. -/
def readUsed (x : Option (Option ℚ)) : Except PyErr (Option ℚ) :=
  match x with
  | none => .error .unboundLocal
  | some used => .ok used

/-- Line 770: `lap_duration_used - best_lap_val if best_lap_val else None`;
when `best_lap_val` is truthy but `lap_duration_used` is `None`, the
subtraction raises `TypeError`. -/
def latestVsBest (used : Option ℚ) (best : Option ℚ) : Except PyErr (Option ℚ) :=
  if truthyQ best then
    match used with
    | none => .error .typeError
    | some u => .ok (some (u - best.getD 0))
  else .ok none

/-- Lines 764-766: append `(current_lap, lap_duration_used)` to the bounded
record list when the current lap has reached the statistics threshold. -/
def recordsAfter (records : List (ℤ × Option ℚ)) (startLap currentLap : ℤ)
    (used : Option ℚ) : List (ℤ × Option ℚ) :=
  if startLap ≤ currentLap then lastN 120 (records ++ [(currentLap, used)]) else records

/-- Line 767: keep the records at or past the threshold that carry a
duration. -/
def filteredRecords (records : List (ℤ × Option ℚ)) (startLap : ℤ) : List (ℤ × ℚ) :=
  records.filterMap fun p =>
    match p.2 with
    | some t => if startLap ≤ p.1 then some (p.1, t) else none
    | none => none

/-- Lines 749-788, the lap-completion statistics block, entered when
`lap_duration_this` is truthy.  Reads `lap_duration_used` (line 762) — whose
value is still the one assigned at the previous lap completion, or unassigned
on the first, raising `UnboundLocalError`; `latest_vs_best` (line 770) can
subtract from a `None`, raising `TypeError`.  Returns the updated state and
insights. -/
def statsBlock (st1 : RaceState) (insights1 : Insights) (ldt : Option ℚ)
    (sbs now : ℚ) : Except PyErr (RaceState × Insights) :=
  if truthyQ ldt then
    let d := ldt.getD 0
    let lap_durations := st1.lap_durations ++ [d]
    let session_best_lap := bestOf st1.session_best_lap d
    (readUsed st1.lap_duration_used).bind fun used =>
      let lap_times_history := lastN 120 (st1.lap_times_history ++ [⟨st1.current_lap, used, false⟩])
      let lap_duration_records :=
        recordsAfter st1.lap_duration_records st1.stats_start_lap st1.current_lap used
      let ts := (filteredRecords lap_duration_records st1.stats_start_lap).map fun p => p.2
      let best_lap_val := listMin ts
      let avg_lap_val : Option ℚ := if ts.length = 0 then none else some (ts.sum / ts.length)
      (latestVsBest used best_lap_val).bind fun latest_vs_best =>
        let consistency_var : Option ℚ :=
          if 2 ≤ ts.length then some (listVar (lastN 5 ts)) else none
        let insights2 : Insights :=
          { best_lap_seconds := best_lap_val
            avg_lap_seconds := avg_lap_val
            latest_vs_best := latest_vs_best
            top_speed_kph := if 0 < sbs then some sbs else insights1.top_speed_kph
            lap_times := lap_times_history
            consistency_var := consistency_var }
        .ok ({ st1 with
                 session_best_lap := session_best_lap
                 lap_durations := lap_durations
                 lap_times_history := lap_times_history
                 lap_duration_records := lap_duration_records
                 lap_timer_start := now }, insights2)
  else .ok (st1, insights1)

/-- Lines 849-868: on lap completion pick the authoritative results-feed
duration when present and positive (else the locally computed one) as
`lap_duration_used`, remember it, and advance the lap counter unless the
categorical signal already did. -/
def finishStep (cfg : Config) (st2 : RaceState) (ldt : Option ℚ)
    (reached_end lap_crossed_data : Bool) : RaceState :=
  let fromAnalysis := lookupAnalysis cfg.analysis st2.current_lap
  let used : Option ℚ :=
    match fromAnalysis with
    | some v => if 0 < v then some v else ldt
    | none => ldt
  let lld := if truthyQ used then used else st2.last_lap_duration
  if reached_end then
    { st2 with lap_duration_used := some used, last_lap_duration := lld
               current_lap := st2.current_lap + 1, index := 0 }
  else if lap_crossed_data then
    { st2 with lap_duration_used := some used, last_lap_duration := lld }
  else
    { st2 with lap_duration_used := some used, last_lap_duration := lld
               current_lap := st2.current_lap + 1 }

/-- Lines 637-647: the geofence detector run on the session's crossing state
(`hasStart` guards `if start_point`; the packet always carries lat/long). -/
def geoOf (cfg : Config) (st1 : RaceState) (inp : TickIn) : GeoState × Bool :=
  let geo0 : GeoState := ⟨st1.near_start, st1.last_cross_time, st1.prev_cross_time⟩
  if cfg.hasStart then geoStep geo0 inp.dist inp.now else (geo0, false)

/-- Line 648: the geometric lap duration, defined only when this tick crossed
and a previous crossing time is truthy. -/
def lapDurationGeomOf (cfg : Config) (st1 : RaceState) (inp : TickIn) : Option ℚ :=
  let geo := (geoOf cfg st1 inp).1
  if (geoOf cfg st1 inp).2 && truthyQ geo.prev_cross_time then
    some (geo.last_cross_time - geo.prev_cross_time.getD 0)
  else none

/-- Line 650: the categorical duration wins whenever the categorical signal
fired; otherwise fall back to the geometric one. -/
def lapDurThis (cfg : Config) (st : RaceState) (inp : TickIn) : Option ℚ :=
  if (samplePhase cfg st inp).lap_crossed_data then (samplePhase cfg st inp).lap_duration_data
  else lapDurationGeomOf cfg (samplePhase cfg st inp).st inp

/-- Lines 651-653: stamp the packet with the lap time when one was measured. -/
def packetWithTime (pk : Packet) (ldt : Option ℚ) : Packet :=
  if truthyQ ldt then { pk with lap_time_sec := ldt } else pk

/-- The packet after the lap-time stamp. -/
def packet1Of (cfg : Config) (st : RaceState) (inp : TickIn) : Packet :=
  packetWithTime (samplePhase cfg st inp).packet (lapDurThis cfg st inp)

/-- Lines 633-634: advance the weather cursor (modulo the row count). -/
def weatherIdxOf (cfg : Config) (st1 : RaceState) : ℕ :=
  if cfg.weatherRows.length ≠ 0 then (st1.weather_idx + 1) % cfg.weatherRows.length
  else st1.weather_idx

/-- Line 635: the snapshot under the advanced cursor. -/
def weatherSnapOf (cfg : Config) (st1 : RaceState) : Option Weather :=
  if cfg.weatherRows.length ≠ 0 then cfg.weatherRows.get? (weatherIdxOf cfg st1)
  else st1.weather_snapshot

/-- Line 478: wall-clock time in the current lap. -/
def lapElapsedOf (st : RaceState) (inp : TickIn) : ℚ := max 0 (inp.now - st.lap_timer_start)

/-- Lines 689-691: the live lap-times list with the provisional entry for the
lap in progress. -/
def insightsLiveOf (cfg : Config) (st : RaceState) (inp : TickIn) : Insights :=
  { (samplePhase cfg st inp).st.insights with
      lap_times := (samplePhase cfg st inp).st.lap_times_history ++
        [⟨(samplePhase cfg st inp).st.current_lap, some (lapElapsedOf st inp), true⟩] }

/-- Lines 692-694: remember the elapsed value last pushed to the live trend
when it moved by more than half a second. -/
def lastLapElapsedEmitOf (cfg : Config) (st : RaceState) (inp : TickIn) : ℚ :=
  if 0.5 < |lapElapsedOf st inp - (samplePhase cfg st inp).st.last_lap_elapsed_emit| then
    lapElapsedOf st inp
  else (samplePhase cfg st inp).st.last_lap_elapsed_emit

/-- Lines 698-700: a new session top speed needs the warm-up threshold lap
and a margin of 0.5 over the previous best. -/
def newTopSpeedOf (cfg : Config) (st : RaceState) (inp : TickIn) : Bool :=
  decide ((samplePhase cfg st inp).st.top_speed_start_lap ≤
    (samplePhase cfg st inp).st.current_lap) &&
  decide ((samplePhase cfg st inp).st.session_best_speed + 0.5 < (packet1Of cfg st inp).speed)

/-- Line 700: the session best speed after this tick. -/
def sessionBestSpeedOf (cfg : Config) (st : RaceState) (inp : TickIn) : ℚ :=
  if newTopSpeedOf cfg st inp then (packet1Of cfg st inp).speed
  else (samplePhase cfg st inp).st.session_best_speed

/-- Lines 790-868 and 870-892 after a successful statistics block `r`: the
top-speed insight refresh, the coaching tip, the lap-completion bookkeeping,
the weather damping, and the final state/packet assembly.  `cl1` is the lap
counter as of line 841 and `geo`/`lap_crossed` the geofence outcome. -/
def tickFinish (cfg : Config) (so : SampleOut) (weather_idx : ℕ)
    (weather_snapshot : Option Weather) (geo : GeoState) (lap_crossed : Bool)
    (lap_duration_this : Option ℚ) (packet1 : Packet) (new_top_speed : Bool)
    (session_best_speed : ℚ) (last_lap_elapsed_emit : ℚ) (cl1 : ℤ)
    (r : RaceState × Insights) : RaceState × Packet :=
  let st2 := r.1
  let insights2 := r.2
  let insights3 :=
    if new_top_speed && decide ((120 : ℚ) < packet1.speed) then
      { insights2 with top_speed_kph := some session_best_speed }
    else insights2
  let tip := coachingTip packet1.brake packet1.throttle packet1.g_lat packet1.speed
    packet1.tire_health so.lap_finished_early lap_duration_this cl1
  let packet2 := { packet1 with coaching_tip := tip }
  let lap_finished := lap_crossed || so.lap_crossed_data || so.reached_end
  let st3 :=
    if lap_finished then finishStep cfg st2 lap_duration_this so.reached_end so.lap_crossed_data
    else st2
  let wd := weatherDamp weather_snapshot st2.last_weather_sent packet2.weather
  ({ st3 with
       insights := insights3
       weather_idx := weather_idx
       weather_snapshot := weather_snapshot
       near_start := geo.near_start
       last_cross_time := geo.last_cross_time
       prev_cross_time := geo.prev_cross_time
       session_best_speed := session_best_speed
       last_lap_elapsed_emit := last_lap_elapsed_emit
       last_weather_sent := wd.1 },
   { packet2 with weather := wd.2 })

/-- One iteration of the `while True` loop of `run_race` (lines 473-892),
excluding the omitted blocks listed in the module docstring.  Returns the
next session state and the packet passed to `socketio.emit` (line 891), or
the Python exception that escapes the iteration. -/
def tick (cfg : Config) (st : RaceState) (inp : TickIn) : Except PyErr (RaceState × Packet) :=
  (statsBlock (samplePhase cfg st inp).st (insightsLiveOf cfg st inp) (lapDurThis cfg st inp)
      (sessionBestSpeedOf cfg st inp) inp.now).map
    (tickFinish cfg (samplePhase cfg st inp)
      (weatherIdxOf cfg (samplePhase cfg st inp).st)
      (weatherSnapOf cfg (samplePhase cfg st inp).st)
      (geoOf cfg (samplePhase cfg st inp).st inp).1
      (geoOf cfg (samplePhase cfg st inp).st inp).2
      (lapDurThis cfg st inp) (packet1Of cfg st inp)
      (newTopSpeedOf cfg st inp) (sessionBestSpeedOf cfg st inp)
      (lastLapElapsedEmitOf cfg st inp) (samplePhase cfg st inp).st.current_lap)

/-- The session state as set up by lines 414-471 at `run_race` entry (`t0` is
`time.time()` then); the module globals it reads keep their load-time values
(`_weather_idx = 0`, `last_weather_sent = None`). -/
def initState (cfg : Config) (t0 : ℚ) : RaceState where
  index := 0
  tires := ⟨100, 100, 100, 100⟩
  tire_health := 100
  current_lap := if cfg.lapStartValue = 0 then 1 else cfg.lapStartValue
  sim_lap_start := t0
  last_speed := 0
  last_rpm := 0
  last_cross_time := 0
  prev_cross_time := none
  last_lap_duration := none
  session_best_speed := 0
  near_start := false
  weather_snapshot :=
    if cfg.weatherRows.length ≠ 0 then cfg.weatherRows.get? (0 % cfg.weatherRows.length)
    else none
  lap_timer_start := t0
  top_speed_start_lap := max 2 (if cfg.lapStartValue = 0 then 1 else cfg.lapStartValue)
  stats_start_lap := max 2 (if cfg.lapStartValue = 0 then 1 else cfg.lapStartValue)
  last_lap_value := none
  last_lap_timestamp := none
  session_best_lap := none
  lap_durations := []
  lap_times_history := []
  lap_duration_records := []
  insights :=
    { best_lap_seconds := none
      avg_lap_seconds := none
      latest_vs_best := none
      top_speed_kph := none
      lap_times := []
      consistency_var := none }
  lap_duration_used := none
  weather_idx := 0
  last_weather_sent := none
  last_lap_elapsed_emit := 0

/-- Run the loop body over a list of tick inputs from a given state,
collecting the emitted packets; stops at the first escaping exception. -/
def runFrom (cfg : Config) (st : RaceState) : List TickIn → Except PyErr (RaceState × List Packet)
  | [] => .ok (st, [])
  | i :: is =>
    match tick cfg st i with
    | .error e => .error e
    | .ok (st1, p) =>
      match runFrom cfg st1 is with
      | .error e => .error e
      | .ok (st2, ps) => .ok (st2, p :: ps)

/-- A fresh session (`run_race` entry at wall-clock `t0`) driven for the given
tick inputs. -/
def runRace (cfg : Config) (t0 : ℚ) (inps : List TickIn) : Except PyErr (RaceState × List Packet) :=
  runFrom cfg (initState cfg t0) inps

/-- The three course sectors. -/
inductive Sector where
  | S1
  | S2
  | S3
deriving DecidableEq, Repr

/-- `get_current_sector` (lines 123-170).  The coordinates are exact; the
haversine fallback distance `distance_m` (lines 112-120) is trigonometric and
hence irrational, so it is taken as a parameter `dist` — every claim about
this function is independent of it.  `if not lat or not lon` is Python
truthiness: `None` and `0` both bail out.  The fallback takes the nearest of
the three markers (dict order S1, S2, S3; `min` keeps the first on ties) and
accepts it only under 300 m. -/
def getCurrentSector (dist : ℚ → ℚ → ℚ → ℚ → ℚ) (lat lon : Option ℚ) : Option Sector :=
  if truthyQ lat = false ∨ truthyQ lon = false then none
  else
    let la := lat.getD 0
    let lo := lon.getD 0
    if lo < -86.6190 ∧ 33.5285 ≤ la ∧ la ≤ 33.5330 then some .S1
    else if 33.5330 < la ∧ -86.6190 ≤ lo ∧ lo ≤ -86.6130 then some .S2
    else if la < 33.5300 ∧ lo < -86.6180 then some .S3
    else
      let d1 := dist la lo 33.5310 (-86.6210)
      let d2 := dist la lo 33.5345 (-86.6160)
      let d3 := dist la lo 33.5285 (-86.6200)
      if d1 ≤ d2 ∧ d1 ≤ d3 then (if d1 < 300 then some .S1 else none)
      else if d2 ≤ d3 then (if d2 < 300 then some .S2 else none)
      else (if d3 < 300 then some .S3 else none)

/-!
The float-granularity model of the sample normalizer (lines 485-604), used to
settle the finiteness invariant C5.  A CPython float is finite, `nan`, or an
infinity; `safe_float` (lines 56-63) replaces only `nan` (and unparsable
input) by the default, so infinities pass through.  Comparisons involving
`nan` are false; `max(a, b)` is `b` if `b > a` else `a`, `min(a, b)` is `b`
if `b < a` else `a`, as in CPython.
-/

/-- A CPython float value. -/
inductive PyFloat where
  | fin (q : ℚ)
  | pinf
  | ninf
  | nan
deriving DecidableEq, Repr

/-- A raw cell as seen by `safe_float`: a float, or something unparsable /
absent (for which `float(value)` raises and the default is returned). -/
inductive PyVal where
  | num (f : PyFloat)
  | missing
deriving DecidableEq, Repr

/-- Strict float comparison `a < b` (false whenever `nan` is involved). -/
def pfLt : PyFloat → PyFloat → Bool
  | .fin a, .fin b => decide (a < b)
  | .fin _, .pinf => true
  | .ninf, .fin _ => true
  | .ninf, .pinf => true
  | _, _ => false

/-- Float comparison `a ≤ b` (false whenever `nan` is involved). -/
def pfLe : PyFloat → PyFloat → Bool
  | .fin a, .fin b => decide (a ≤ b)
  | .fin _, .pinf => true
  | .ninf, .fin _ => true
  | .ninf, .pinf => true
  | .ninf, .ninf => true
  | .pinf, .pinf => true
  | _, _ => false

/-- IEEE float addition on the extended values. -/
def pfAdd : PyFloat → PyFloat → PyFloat
  | .nan, _ => .nan
  | _, .nan => .nan
  | .pinf, .ninf => .nan
  | .ninf, .pinf => .nan
  | .pinf, _ => .pinf
  | _, .pinf => .pinf
  | .ninf, _ => .ninf
  | _, .ninf => .ninf
  | .fin a, .fin b => .fin (a + b)

/-- IEEE float negation. -/
def pfNeg : PyFloat → PyFloat
  | .fin a => .fin (-a)
  | .pinf => .ninf
  | .ninf => .pinf
  | .nan => .nan

/-- IEEE float subtraction. -/
def pfSub (a b : PyFloat) : PyFloat := pfAdd a (pfNeg b)

/-- IEEE float multiplication (`±inf * 0 = nan`). -/
def pfMul : PyFloat → PyFloat → PyFloat
  | .nan, _ => .nan
  | _, .nan => .nan
  | .fin a, .fin b => .fin (a * b)
  | .pinf, .pinf => .pinf
  | .pinf, .ninf => .ninf
  | .ninf, .pinf => .ninf
  | .ninf, .ninf => .pinf
  | .pinf, .fin b => if 0 < b then .pinf else if b < 0 then .ninf else .nan
  | .ninf, .fin b => if 0 < b then .ninf else if b < 0 then .pinf else .nan
  | .fin a, .pinf => if 0 < a then .pinf else if a < 0 then .ninf else .nan
  | .fin a, .ninf => if 0 < a then .ninf else if a < 0 then .pinf else .nan

/-- CPython `max(a, b)`: `b` if `b > a` else `a`. -/
def pfMax (a b : PyFloat) : PyFloat := if pfLt a b then b else a

/-- CPython `min(a, b)`: `b` if `b < a` else `a`. -/
def pfMin (a b : PyFloat) : PyFloat := if pfLt b a then b else a

/-- IEEE float absolute value. -/
def pfAbs : PyFloat → PyFloat
  | .fin a => .fin |a|
  | .nan => .nan
  | _ => .pinf

/-- `round(x, 2)` on a float: infinities and `nan` are returned unchanged. -/
def pfRound2 : PyFloat → PyFloat
  | .fin q => .fin (round2 q)
  | x => x

/-- Is the value a finite number? -/
def pfIsFinite : PyFloat → Bool
  | .fin _ => true
  | _ => false

/-- `safe_float(value, default)` (lines 56-63): `nan` and unparsable input
become the default; infinities pass through untouched. -/
def safeFloat (v : PyVal) (d : ℚ) : PyFloat :=
  match v with
  | .num .nan => .fin d
  | .num f => f
  | .missing => .fin d

/-- `safe_int(value, default)` (lines 66-71): `int()` of an infinity raises
`OverflowError`, caught and mapped to the default; `safe_float` has already
turned `nan` into the default. -/
def pyIntF (x : PyFloat) (d : ℤ) : ℤ :=
  match x with
  | .fin q => pyInt q
  | _ => d

/-- The four tires at float granularity. -/
structure TireSetF where
  fl : PyFloat
  fr : PyFloat
  rl : PyFloat
  rr : PyFloat
deriving DecidableEq, Repr

/-- A telemetry row at float granularity; fields collapse the same alias
chains as `Sample`. -/
structure SampleF where
  speed : PyVal
  rpm : PyVal
  brakeDirect : PyVal
  pbrakeF : PyVal
  pbrakeR : PyVal
  accX : PyVal
  accY : PyVal
  gear : PyVal
  throttle : PyVal
  lat : PyVal
  long : PyVal
deriving DecidableEq, Repr

/-- A row with every column absent. -/
def sampleFEmpty : SampleF :=
  ⟨.missing, .missing, .missing, .missing, .missing, .missing, .missing, .missing, .missing,
   .missing, .missing⟩

/-- The carry-over state the normalizer reads and writes (lines 441-442 init
to 0.0; tires to 100). -/
structure NormState where
  last_speed : PyFloat
  last_rpm : PyFloat
  tires : TireSetF
deriving DecidableEq, Repr

/-- The normalizer state at session start. -/
def normInit : NormState := ⟨.fin 0, .fin 0, ⟨.fin 100, .fin 100, .fin 100, .fin 100⟩⟩

/-- The numeric packet fields at float granularity. -/
structure PacketF where
  speed : PyFloat
  rpm : PyFloat
  gear : ℤ
  throttle : PyFloat
  brake : PyFloat
  g_lat : PyFloat
  g_long : PyFloat
  lat : PyFloat
  long : PyFloat
  tire_health : PyFloat
  tire_healths : TireSetF
deriving DecidableEq, Repr

/-- `max(0, t - c)` as written at lines 561-567. -/
def wheelF (t c : PyFloat) : PyFloat := pfMax (.fin 0) (pfSub t c)

/-- Lines 485-604 at float granularity: field resolution through
`safe_float`, speed/rpm carry-over smoothing, brake normalization, tire wear
and the packet numeric fields. -/
def normalizeTick (st : NormState) (s : SampleF) : NormState × PacketF :=
  let raw_speed0 := safeFloat s.speed 0
  let rpm_hint := safeFloat s.rpm 0
  let raw_speed1 :=
    if pfLe raw_speed0 (.fin 0) && pfLt (.fin 5) st.last_speed then st.last_speed else raw_speed0
  let raw_speed2 :=
    if pfLe raw_speed1 (.fin 0) && pfLt (.fin 500) rpm_hint then
      pfMax (.fin 8) (pfMul rpm_hint (.fin (1 / 80)))
    else raw_speed1
  let speed :=
    if pfLe st.last_speed (.fin 0) then raw_speed2
    else pfAdd (pfMul (.fin 0.97) raw_speed2) (pfMul (.fin 0.03) st.last_speed)
  let brakeChain :=
    match s.brakeDirect with
    | .num f => f
    | .missing => pfMax (safeFloat s.pbrakeF 0) (safeFloat s.pbrakeR 0)
  let brake0 := if brakeChain = .nan then .fin 0 else brakeChain
  let brake :=
    if pfLt (.fin 100) brake0 then
      pfMin (.fin 100) (pfMul (pfMul brake0 (.fin (1 / 1500))) (.fin 100))
    else brake0
  let acc_x := safeFloat s.accX 0
  let acc_y := safeFloat s.accY 0
  let brake_load := pfMul brake (.fin 0.01)
  let corner_load := pfMul (pfAbs acc_x) (.fin 0.02)
  let t0 := st.tires
  let t1 :=
    if pfLe (.fin 0) acc_x then
      { t0 with fl := wheelF t0.fl corner_load, rl := wheelF t0.rl (pfMul corner_load (.fin 0.9)) }
    else
      { t0 with fr := wheelF t0.fr corner_load, rr := wheelF t0.rr (pfMul corner_load (.fin 0.9)) }
  let bl := pfMul brake_load (.fin 0.25)
  let t2 : TireSetF := ⟨wheelF t1.fl bl, wheelF t1.fr bl, wheelF t1.rl bl, wheelF t1.rr bl⟩
  let tire_health :=
    pfRound2 (pfMul (pfAdd (pfAdd (pfAdd t2.fl t2.fr) t2.rl) t2.rr) (.fin (1 / 4)))
  let last_speed := pfMax speed (.fin 0)
  let raw_rpm0 := safeFloat s.rpm 0
  let raw_rpm :=
    if pfLe raw_rpm0 (.fin 100) && pfLt (.fin 0) st.last_rpm then st.last_rpm else raw_rpm0
  let rpm_val :=
    if pfLe st.last_rpm (.fin 0) then raw_rpm
    else pfAdd (pfMul (.fin 0.95) raw_rpm) (pfMul (.fin 0.05) st.last_rpm)
  let last_rpm := pfMax rpm_val (.fin 0)
  let lat := safeFloat s.lat 33.532
  let long := safeFloat s.long (-86.619)
  ({ last_speed := last_speed, last_rpm := last_rpm, tires := t2 },
   { speed := speed
     rpm := rpm_val
     gear := pyIntF (safeFloat s.gear 0) 0
     throttle := safeFloat s.throttle 0
     brake := brake
     g_lat := acc_x
     g_long := acc_y
     lat := lat
     long := long
     tire_health := tire_health
     tire_healths := t2 })

/-!  Predicates and concrete scenario data used by the theorems below. -/

/-- Every brake-pressure source of the row, when present, is nonnegative
(physical brake data; the code never clamps negative values). -/
def brakeOK (s : Sample) : Bool :=
  s.brakeDirect.all (fun q => decide (0 ≤ q)) &&
  s.pbrakeF.all (fun q => decide (0 ≤ q)) &&
  s.pbrakeR.all (fun q => decide (0 ≤ q))

/-- All four wheels are nonnegative. -/
def TireNonneg (t : TireSet) : Prop := 0 ≤ t.fl ∧ 0 ≤ t.fr ∧ 0 ≤ t.rl ∧ 0 ≤ t.rr

/-- Pointwise wheel comparison. -/
def TireLe (a b : TireSet) : Prop := a.fl ≤ b.fl ∧ a.fr ≤ b.fr ∧ a.rl ≤ b.rl ∧ a.rr ≤ b.rr

/-- All four wheels are at most 100. -/
def TireLe100 (t : TireSet) : Prop := t.fl ≤ 100 ∧ t.fr ≤ 100 ∧ t.rl ≤ 100 ∧ t.rr ≤ 100

/-- No raw field of the row is an infinity (it may be finite, NaN, or
absent). -/
def noInfVal (v : PyVal) : Bool :=
  match v with
  | .num .pinf => false
  | .num .ninf => false
  | _ => true

/-- No raw field of the float-granularity row is an infinity. -/
def sampleNoInf (s : SampleF) : Bool :=
  noInfVal s.speed && noInfVal s.rpm && noInfVal s.brakeDirect && noInfVal s.pbrakeF &&
  noInfVal s.pbrakeR && noInfVal s.accX && noInfVal s.accY && noInfVal s.gear &&
  noInfVal s.throttle && noInfVal s.lat && noInfVal s.long

/-- The carried-over normalizer state is all finite. -/
def normStateFinite (st : NormState) : Bool :=
  pfIsFinite st.last_speed && pfIsFinite st.last_rpm && pfIsFinite st.tires.fl &&
  pfIsFinite st.tires.fr && pfIsFinite st.tires.rl && pfIsFinite st.tires.rr

/-- All float-valued packet fields are finite. -/
def packetFFinite (p : PacketF) : Bool :=
  pfIsFinite p.speed && pfIsFinite p.rpm && pfIsFinite p.throttle && pfIsFinite p.brake &&
  pfIsFinite p.g_lat && pfIsFinite p.g_long && pfIsFinite p.lat && pfIsFinite p.long &&
  pfIsFinite p.tire_health && pfIsFinite p.tire_healths.fl && pfIsFinite p.tire_healths.fr &&
  pfIsFinite p.tire_healths.rl && pfIsFinite p.tire_healths.rr

/-- Shorthand for a tick input with no synthetic waveform. -/
def tIn (now dist : ℚ) : TickIn := ⟨now, dist, 0, 0⟩

/-- A placeholder packet used only to destructure `Except` results. -/
def dummyPacket : Packet :=
  { speed := 0, rpm := 0, gear := 0, throttle := 0, brake := 0, g_lat := 0, g_long := 0,
    lat := 0, long := 0, tire_health := 0, tire_healths := ⟨0, 0, 0, 0⟩, lap := 0,
    total_laps := 0, weather := none, lap_time_sec := none, coaching_tip := none }

/-- The state component of a successful tick (placeholder on error). -/
def tickSt (cfg : Config) (st : RaceState) (inp : TickIn) : RaceState :=
  match tick cfg st inp with
  | .ok (s, _) => s
  | .error _ => st

/-- The packet component of a successful tick (placeholder on error). -/
def tickPk (cfg : Config) (st : RaceState) (inp : TickIn) : Packet :=
  match tick cfg st inp with
  | .ok (_, p) => p
  | .error _ => dummyPacket

/-- The final state of a successful run (placeholder on error). -/
def runSt (cfg : Config) (t0 : ℚ) (inps : List TickIn) : RaceState :=
  match runRace cfg t0 inps with
  | .ok (s, _) => s
  | .error _ => initState cfg t0

/-- The emitted packets of a successful run (placeholder on error). -/
def runPs (cfg : Config) (t0 : ℚ) (inps : List TickIn) : List Packet :=
  match runRace cfg t0 inps with
  | .ok (_, ps) => ps
  | .error _ => []

/-- Scenario: seven all-empty telemetry rows, a results feed carrying 100 s
for lap 2, no weather, defaults otherwise.  Lap completions can then only
come from the geofence. -/
def cfgGeo : Config :=
  { telemetry := List.replicate 7 sampleEmpty
    weatherRows := []
    analysis := [(2, some 100)]
    totalLaps := 22
    lapStartValue := 1
    hasStart := true }

/-- Distances 30, 10, 30, 10 at times 10, 20, 100, 220: geofence crossings at
t = 20 (lap 1, no previous crossing, so no duration) and t = 220 (lap 2,
locally timed at 200 s). -/
def inpsGeo4 : List TickIn := [tIn 10 30, tIn 20 10, tIn 100 30, tIn 220 10]

/-- Two further ticks extending `inpsGeo4` with a third crossing at t = 300
(lap 3, locally timed at 80 s). -/
def inpsGeo6 : List TickIn := inpsGeo4 ++ [tIn 230 30, tIn 300 10]

/-- A row carrying only a timestamp and a lap index. -/
def sTs (ts : ℚ) (lv : ℤ) : Sample :=
  { sampleEmpty with timestamp := some ts, lapValue := some lv }

/-- Scenario: two telemetry rows whose lap index steps from 1 to 2 with valid
timestamps 0 s and 100 s — the smallest input sequence on which the loop
completes a lap with a timed duration. -/
def cfgLapData : Config :=
  { telemetry := [sTs 0 1, sTs 100 2]
    weatherRows := []
    analysis := []
    totalLaps := 22
    lapStartValue := 1
    hasStart := true }

/-- Two ticks far from the start point. -/
def inpsLap2 : List TickIn := [tIn 10 1000, tIn 20 1000]

/-- A weather row. -/
def wA : Weather := ⟨25, 30, 50, 5, 0, 0⟩

/-- A weather row differing from `wA` by 0.5 °C air temperature only. -/
def wB : Weather := ⟨25.5, 30, 50, 5, 0, 0⟩

/-- Scenario: no telemetry (synthetic mode), two weather rows 0.5 °C apart. -/
def cfgWx : Config :=
  { telemetry := []
    weatherRows := [wA, wB]
    analysis := []
    totalLaps := 22
    lapStartValue := 1
    hasStart := true }

/-- The `cfgWx` session state with `wA` already dispatched. -/
def stWx : RaceState := { initState cfgWx 0 with last_weather_sent := some wA }

/-- A row whose only column is a brake pressure of -100. -/
def sNegBrake : Sample := { sampleEmpty with brakeDirect := some (-100) }

/-- Scenario: a single telemetry row with a negative brake value. -/
def cfgNegBrake : Config :=
  { telemetry := [sNegBrake]
    weatherRows := []
    analysis := []
    totalLaps := 22
    lapStartValue := 1
    hasStart := true }

/-- A benign telemetry row: brake 50, throttle 40, lateral g 1. -/
def sBenign : Sample :=
  { sampleEmpty with brakeDirect := some 50, throttle := some 40, accX := some 1 }

/-- Scenario: one benign telemetry row. -/
def cfgBenign : Config :=
  { telemetry := [sBenign]
    weatherRows := []
    analysis := []
    totalLaps := 22
    lapStartValue := 1
    hasStart := true }

/-- A row with brake 60 and throttle 40: the blended-brake-and-throttle tip
condition holds. -/
def sBlend : Sample :=
  { sampleEmpty with brakeDirect := some 60, throttle := some 40 }

/-- Scenario: one blended-brake-and-throttle row. -/
def cfgTip : Config :=
  { telemetry := [sBlend]
    weatherRows := []
    analysis := []
    totalLaps := 22
    lapStartValue := 1
    hasStart := true }

/-- A float-granularity row whose only present column is an infinite speed. -/
def sInfSpeed : SampleF := { sampleFEmpty with speed := .num .pinf }

/-- A float-granularity row with small finite values in every column. -/
def sFiniteF : SampleF :=
  { speed := .num (.fin 120), rpm := .num (.fin 5000), brakeDirect := .num (.fin 40)
    pbrakeF := .missing, pbrakeR := .missing, accX := .num (.fin 1), accY := .num (.fin 0)
    gear := .num (.fin 3), throttle := .num (.fin 55), lat := .num (.fin 33.53)
    long := .num (.fin (-86.62)) }

/-!  Auxiliary lemmas shared by the claim theorems. -/

theorem lastN_subset {α : Type} (n : ℕ) (l : List α) : ∀ e ∈ lastN n l, e ∈ l :=
  fun _ he => List.drop_subset _ _ he

theorem wheel_nonneg (x c : ℚ) : 0 ≤ max 0 (x - c) := le_max_left 0 _

theorem wheel_le (x c : ℚ) (hx : 0 ≤ x) (hc : 0 ≤ c) : max 0 (x - c) ≤ x :=
  max_le hx (by linarith)

theorem wheel2_le (x c d : ℚ) (hx : 0 ≤ x) (hc : 0 ≤ c) (hd : 0 ≤ d) :
    max 0 (max 0 (x - c) - d) ≤ x :=
  le_trans (wheel_le _ _ (wheel_nonneg x c) hd) (wheel_le x c hx hc)

/-- With a nonnegative brake input, one tire step keeps every wheel
nonnegative and never increases any wheel. -/
theorem tireStep_spec (t : TireSet) (b a : ℚ) (hb : 0 ≤ b) (ht : TireNonneg t) :
    TireNonneg (tireStep t b a) ∧ TireLe (tireStep t b a) t := by
  obtain ⟨h1, h2, h3, h4⟩ := ht
  have hc : (0 : ℚ) ≤ |a| * 0.02 := by positivity
  have hc9 : (0 : ℚ) ≤ |a| * 0.02 * 0.9 := by positivity
  have hbl : (0 : ℚ) ≤ b * 0.01 * 0.25 := by positivity
  unfold tireStep TireNonneg TireLe
  split <;> dsimp only
  · exact ⟨⟨wheel_nonneg _ _, wheel_nonneg _ _, wheel_nonneg _ _, wheel_nonneg _ _⟩,
      wheel2_le _ _ _ h1 hc hbl, wheel_le _ _ h2 hbl,
      wheel2_le _ _ _ h3 hc9 hbl, wheel_le _ _ h4 hbl⟩
  · exact ⟨⟨wheel_nonneg _ _, wheel_nonneg _ _, wheel_nonneg _ _, wheel_nonneg _ _⟩,
      wheel_le _ _ h1 hbl, wheel2_le _ _ _ h2 hc hbl,
      wheel_le _ _ h3 hbl, wheel2_le _ _ _ h4 hc9 hbl⟩

/-- A row whose brake sources are nonnegative resolves to a nonnegative
brake value. -/
theorem resolveBrake_nonneg (row : Sample) (h : brakeOK row = true) : 0 ≤ resolveBrake row := by
  unfold brakeOK at h
  simp only [Bool.and_eq_true] at h
  obtain ⟨⟨hbd, hpf⟩, hpr⟩ := h
  unfold resolveBrake
  dsimp only
  have h0 : 0 ≤ row.brakeDirect.getD (max (row.pbrakeF.getD 0) (row.pbrakeR.getD 0)) := by
    cases hb : row.brakeDirect with
    | some q =>
      rw [hb] at hbd
      simp only [Option.all, decide_eq_true_eq] at hbd
      simpa using hbd
    | none =>
      simp only [hb, Option.getD_none]
      have : (0 : ℚ) ≤ row.pbrakeF.getD 0 := by
        cases hf : row.pbrakeF with
        | some q =>
          rw [hf] at hpf
          simp only [Option.all, decide_eq_true_eq] at hpf
          simpa using hpf
        | none => simp
      exact le_max_of_le_left this
  split
  · rename_i hgt
    refine le_min (by norm_num) ?_
    have : (0 : ℚ) < row.brakeDirect.getD (max (row.pbrakeF.getD 0) (row.pbrakeR.getD 0)) := by
      linarith
    positivity
  · exact h0

/-- The sample phase leaves all statistics, weather and geofence state
untouched, never decreases the lap counter, and stamps the packet with the
post-merge lap number and the freshly computed tire values. -/
theorem samplePhase_spec (cfg : Config) (st : RaceState) (inp : TickIn) :
    (samplePhase cfg st inp).st.stats_start_lap = st.stats_start_lap ∧
    (samplePhase cfg st inp).st.top_speed_start_lap = st.top_speed_start_lap ∧
    (samplePhase cfg st inp).st.lap_duration_records = st.lap_duration_records ∧
    (samplePhase cfg st inp).st.lap_times_history = st.lap_times_history ∧
    (samplePhase cfg st inp).st.lap_durations = st.lap_durations ∧
    (samplePhase cfg st inp).st.session_best_lap = st.session_best_lap ∧
    (samplePhase cfg st inp).st.lap_duration_used = st.lap_duration_used ∧
    (samplePhase cfg st inp).st.insights = st.insights ∧
    (samplePhase cfg st inp).st.last_weather_sent = st.last_weather_sent ∧
    (samplePhase cfg st inp).st.weather_idx = st.weather_idx ∧
    (samplePhase cfg st inp).st.weather_snapshot = st.weather_snapshot ∧
    (samplePhase cfg st inp).st.near_start = st.near_start ∧
    (samplePhase cfg st inp).st.last_cross_time = st.last_cross_time ∧
    (samplePhase cfg st inp).st.prev_cross_time = st.prev_cross_time ∧
    (samplePhase cfg st inp).st.lap_timer_start = st.lap_timer_start ∧
    (samplePhase cfg st inp).st.session_best_speed = st.session_best_speed ∧
    (samplePhase cfg st inp).st.last_lap_elapsed_emit = st.last_lap_elapsed_emit ∧
    st.current_lap ≤ (samplePhase cfg st inp).st.current_lap ∧
    (samplePhase cfg st inp).packet.lap = (samplePhase cfg st inp).st.current_lap ∧
    (samplePhase cfg st inp).packet.tire_health = (samplePhase cfg st inp).st.tire_health ∧
    (samplePhase cfg st inp).packet.tire_healths = (samplePhase cfg st inp).st.tires ∧
    (samplePhase cfg st inp).st.tire_health = round2 (tireMean (samplePhase cfg st inp).st.tires) := by
  unfold samplePhase
  split
  · exact ⟨rfl, rfl, rfl, rfl, rfl, rfl, rfl, rfl, rfl, rfl, rfl, rfl, rfl, rfl, rfl, rfl, rfl,
      le_max_left _ _, rfl, rfl, rfl, rfl⟩
  · exact ⟨rfl, rfl, rfl, rfl, rfl, rfl, rfl, rfl, rfl, rfl, rfl, rfl, rfl, rfl, rfl, rfl, rfl,
      le_refl _, rfl, rfl, rfl, rfl⟩

/-- When every telemetry row has nonnegative brake sources, the sample phase
updates the tires by exactly one `tireStep` with a nonnegative brake. -/
theorem samplePhase_tires (cfg : Config) (st : RaceState) (inp : TickIn)
    (hb : cfg.telemetry.all brakeOK = true) :
    ∃ b a, 0 ≤ b ∧ (samplePhase cfg st inp).st.tires = tireStep st.tires b a := by
  unfold samplePhase
  split
  · rename_i h
    refine ⟨resolveBrake (cfg.telemetry.get ⟨st.index, h⟩),
      (cfg.telemetry.get ⟨st.index, h⟩).accX.getD 0, ?_, rfl⟩
    exact resolveBrake_nonneg _ (List.all_eq_true.mp hb _ (List.get_mem _ _ _))
  · exact ⟨0, inp.sinT, le_refl 0, rfl⟩

theorem except_bind_ok {ε α β : Type} (x : Except ε α) (f : α → Except ε β) (b : β)
    (h : x.bind f = .ok b) : ∃ a, x = .ok a ∧ f a = .ok b := by
  cases x with
  | error e => simp [Except.bind] at h
  | ok a => exact ⟨a, rfl, h⟩

theorem except_map_ok {ε α β : Type} (f : α → β) (x : Except ε α) (b : β)
    (h : x.map f = .ok b) : ∃ a, x = .ok a ∧ f a = b := by
  cases x with
  | error e => simp [Except.map] at h
  | ok a =>
    refine ⟨a, rfl, ?_⟩
    simpa [Except.map] using h

/-- Any entry of the bounded record list is an old entry or is tagged with
the current lap, having cleared the threshold. -/
theorem recordsAfter_mem (r : List (ℤ × Option ℚ)) (s c : ℤ) (u : Option ℚ) :
    ∀ e ∈ recordsAfter r s c u, e ∈ r ∨ s ≤ e.1 := by
  intro e he
  unfold recordsAfter at he
  by_cases hc : s ≤ c
  · rw [if_pos hc] at he
    rcases List.mem_append.mp (lastN_subset _ _ e he) with hm | hm
    · exact .inl hm
    · right
      have : e = (c, u) := by simpa using hm
      rw [this]
      exact hc
  · rw [if_neg hc] at he
    exact .inl he

/-- A successful statistics block leaves the lap counter, tires, thresholds
and weather state alone, and any new history record is tagged with the
current lap, which then clears the statistics threshold. -/
theorem statsBlock_ok (st1 : RaceState) (ins : Insights) (ldt : Option ℚ) (sbs now : ℚ)
    (st2 : RaceState) (ins2 : Insights)
    (h : statsBlock st1 ins ldt sbs now = .ok (st2, ins2)) :
    st2.current_lap = st1.current_lap ∧
    st2.tires = st1.tires ∧
    st2.tire_health = st1.tire_health ∧
    st2.stats_start_lap = st1.stats_start_lap ∧
    st2.last_weather_sent = st1.last_weather_sent ∧
    st2.weather_idx = st1.weather_idx ∧
    st2.weather_snapshot = st1.weather_snapshot ∧
    st2.index = st1.index ∧
    (∀ e ∈ st2.lap_duration_records,
      e ∈ st1.lap_duration_records ∨ st1.stats_start_lap ≤ e.1) := by
  unfold statsBlock at h
  by_cases hldt : truthyQ ldt = true
  · rw [if_pos hldt] at h
    obtain ⟨used, hu, h⟩ := except_bind_ok _ _ _ h
    obtain ⟨lvb, hl, h⟩ := except_bind_ok _ _ _ h
    injection h with h'
    injection h' with ha hb
    subst ha
    refine ⟨rfl, rfl, rfl, rfl, rfl, rfl, rfl, rfl, ?_⟩
    intro e he
    exact recordsAfter_mem _ _ _ _ e he
  · rw [if_neg hldt] at h
    injection h with h'
    injection h' with ha hb
    subst ha
    exact ⟨rfl, rfl, rfl, rfl, rfl, rfl, rfl, rfl, fun e he => .inl he⟩

/-- The lap-completion bookkeeping leaves tires, thresholds, records and
weather state alone and advances the lap counter by zero or one. -/
theorem finishStep_fields (cfg : Config) (st2 : RaceState) (ldt : Option ℚ)
    (re lcd : Bool) :
    (finishStep cfg st2 ldt re lcd).tires = st2.tires ∧
    (finishStep cfg st2 ldt re lcd).stats_start_lap = st2.stats_start_lap ∧
    (finishStep cfg st2 ldt re lcd).lap_duration_records = st2.lap_duration_records ∧
    (finishStep cfg st2 ldt re lcd).last_weather_sent = st2.last_weather_sent ∧
    ((finishStep cfg st2 ldt re lcd).current_lap = st2.current_lap ∨
     (finishStep cfg st2 ldt re lcd).current_lap = st2.current_lap + 1) := by
  unfold finishStep
  split
  · exact ⟨rfl, rfl, rfl, rfl, .inr rfl⟩
  · split
    · exact ⟨rfl, rfl, rfl, rfl, .inl rfl⟩
    · exact ⟨rfl, rfl, rfl, rfl, .inr rfl⟩

/-- When both temperature deltas between the advanced snapshot and the last
dispatched snapshot are below one degree, the damper re-emits the dispatched
snapshot and leaves it dispatched, whatever the packet already carried. -/
theorem weatherDamp_small (ws lw : Weather) (pw : Option Weather)
    (h1 : |ws.temp_c - lw.temp_c| < 1) (h2 : |ws.track_temp_c - lw.track_temp_c| < 1) :
    weatherDamp (some ws) (some lw) pw = (some lw, some lw) := by
  dsimp only [weatherDamp]
  rw [if_pos ⟨h1, h2⟩]
  rfl

theorem tickFinish_st_tires (cfg : Config) (so : SampleOut) (widx : ℕ) (wsnap : Option Weather)
    (geo : GeoState) (lc : Bool) (ldt : Option ℚ) (pk1 : Packet) (nts : Bool) (sbs lee : ℚ)
    (cl1 : ℤ) (r : RaceState × Insights) :
    (tickFinish cfg so widx wsnap geo lc ldt pk1 nts sbs lee cl1 r).1.tires = r.1.tires := by
  unfold tickFinish
  dsimp only
  split
  · exact (finishStep_fields _ _ _ _ _).1
  · rfl

theorem tickFinish_st_stats_start (cfg : Config) (so : SampleOut) (widx : ℕ)
    (wsnap : Option Weather) (geo : GeoState) (lc : Bool) (ldt : Option ℚ) (pk1 : Packet)
    (nts : Bool) (sbs lee : ℚ) (cl1 : ℤ) (r : RaceState × Insights) :
    (tickFinish cfg so widx wsnap geo lc ldt pk1 nts sbs lee cl1 r).1.stats_start_lap =
      r.1.stats_start_lap := by
  unfold tickFinish
  dsimp only
  split
  · exact (finishStep_fields _ _ _ _ _).2.1
  · rfl

theorem tickFinish_st_records (cfg : Config) (so : SampleOut) (widx : ℕ)
    (wsnap : Option Weather) (geo : GeoState) (lc : Bool) (ldt : Option ℚ) (pk1 : Packet)
    (nts : Bool) (sbs lee : ℚ) (cl1 : ℤ) (r : RaceState × Insights) :
    (tickFinish cfg so widx wsnap geo lc ldt pk1 nts sbs lee cl1 r).1.lap_duration_records =
      r.1.lap_duration_records := by
  unfold tickFinish
  dsimp only
  split
  · exact (finishStep_fields _ _ _ _ _).2.2.1
  · rfl

theorem tickFinish_st_lap (cfg : Config) (so : SampleOut) (widx : ℕ) (wsnap : Option Weather)
    (geo : GeoState) (lc : Bool) (ldt : Option ℚ) (pk1 : Packet) (nts : Bool) (sbs lee : ℚ)
    (cl1 : ℤ) (r : RaceState × Insights) :
    (tickFinish cfg so widx wsnap geo lc ldt pk1 nts sbs lee cl1 r).1.current_lap =
      r.1.current_lap ∨
    (tickFinish cfg so widx wsnap geo lc ldt pk1 nts sbs lee cl1 r).1.current_lap =
      r.1.current_lap + 1 := by
  unfold tickFinish
  dsimp only
  split
  · exact (finishStep_fields _ _ _ _ _).2.2.2.2
  · exact .inl rfl

theorem tickFinish_st_wsnap (cfg : Config) (so : SampleOut) (widx : ℕ) (wsnap : Option Weather)
    (geo : GeoState) (lc : Bool) (ldt : Option ℚ) (pk1 : Packet) (nts : Bool) (sbs lee : ℚ)
    (cl1 : ℤ) (r : RaceState × Insights) :
    (tickFinish cfg so widx wsnap geo lc ldt pk1 nts sbs lee cl1 r).1.weather_snapshot =
      wsnap := rfl

theorem tickFinish_weather (cfg : Config) (so : SampleOut) (widx : ℕ) (wsnap : Option Weather)
    (geo : GeoState) (lc : Bool) (ldt : Option ℚ) (pk1 : Packet) (nts : Bool) (sbs lee : ℚ)
    (cl1 : ℤ) (r : RaceState × Insights) :
    ((tickFinish cfg so widx wsnap geo lc ldt pk1 nts sbs lee cl1 r).1.last_weather_sent,
     (tickFinish cfg so widx wsnap geo lc ldt pk1 nts sbs lee cl1 r).2.weather) =
      weatherDamp wsnap r.1.last_weather_sent pk1.weather := rfl

theorem tickFinish_p_tire_healths (cfg : Config) (so : SampleOut) (widx : ℕ)
    (wsnap : Option Weather) (geo : GeoState) (lc : Bool) (ldt : Option ℚ) (pk1 : Packet)
    (nts : Bool) (sbs lee : ℚ) (cl1 : ℤ) (r : RaceState × Insights) :
    (tickFinish cfg so widx wsnap geo lc ldt pk1 nts sbs lee cl1 r).2.tire_healths =
      pk1.tire_healths := rfl

theorem tickFinish_p_tire_health (cfg : Config) (so : SampleOut) (widx : ℕ)
    (wsnap : Option Weather) (geo : GeoState) (lc : Bool) (ldt : Option ℚ) (pk1 : Packet)
    (nts : Bool) (sbs lee : ℚ) (cl1 : ℤ) (r : RaceState × Insights) :
    (tickFinish cfg so widx wsnap geo lc ldt pk1 nts sbs lee cl1 r).2.tire_health =
      pk1.tire_health := rfl

theorem tickFinish_p_lap (cfg : Config) (so : SampleOut) (widx : ℕ) (wsnap : Option Weather)
    (geo : GeoState) (lc : Bool) (ldt : Option ℚ) (pk1 : Packet) (nts : Bool) (sbs lee : ℚ)
    (cl1 : ℤ) (r : RaceState × Insights) :
    (tickFinish cfg so widx wsnap geo lc ldt pk1 nts sbs lee cl1 r).2.lap = pk1.lap := rfl

theorem tickFinish_p_brake (cfg : Config) (so : SampleOut) (widx : ℕ) (wsnap : Option Weather)
    (geo : GeoState) (lc : Bool) (ldt : Option ℚ) (pk1 : Packet) (nts : Bool) (sbs lee : ℚ)
    (cl1 : ℤ) (r : RaceState × Insights) :
    (tickFinish cfg so widx wsnap geo lc ldt pk1 nts sbs lee cl1 r).2.brake = pk1.brake := rfl

theorem tickFinish_p_throttle (cfg : Config) (so : SampleOut) (widx : ℕ) (wsnap : Option Weather)
    (geo : GeoState) (lc : Bool) (ldt : Option ℚ) (pk1 : Packet) (nts : Bool) (sbs lee : ℚ)
    (cl1 : ℤ) (r : RaceState × Insights) :
    (tickFinish cfg so widx wsnap geo lc ldt pk1 nts sbs lee cl1 r).2.throttle =
      pk1.throttle := rfl

theorem tickFinish_p_g_lat (cfg : Config) (so : SampleOut) (widx : ℕ) (wsnap : Option Weather)
    (geo : GeoState) (lc : Bool) (ldt : Option ℚ) (pk1 : Packet) (nts : Bool) (sbs lee : ℚ)
    (cl1 : ℤ) (r : RaceState × Insights) :
    (tickFinish cfg so widx wsnap geo lc ldt pk1 nts sbs lee cl1 r).2.g_lat = pk1.g_lat := rfl

theorem tickFinish_p_speed (cfg : Config) (so : SampleOut) (widx : ℕ) (wsnap : Option Weather)
    (geo : GeoState) (lc : Bool) (ldt : Option ℚ) (pk1 : Packet) (nts : Bool) (sbs lee : ℚ)
    (cl1 : ℤ) (r : RaceState × Insights) :
    (tickFinish cfg so widx wsnap geo lc ldt pk1 nts sbs lee cl1 r).2.speed = pk1.speed := rfl

theorem tickFinish_p_tip (cfg : Config) (so : SampleOut) (widx : ℕ) (wsnap : Option Weather)
    (geo : GeoState) (lc : Bool) (ldt : Option ℚ) (pk1 : Packet) (nts : Bool) (sbs lee : ℚ)
    (cl1 : ℤ) (r : RaceState × Insights) :
    (tickFinish cfg so widx wsnap geo lc ldt pk1 nts sbs lee cl1 r).2.coaching_tip =
      coachingTip pk1.brake pk1.throttle pk1.g_lat pk1.speed pk1.tire_health
        so.lap_finished_early ldt cl1 := rfl

theorem packetWithTime_fields (pk : Packet) (ldt : Option ℚ) :
    (packetWithTime pk ldt).tire_healths = pk.tire_healths ∧
    (packetWithTime pk ldt).tire_health = pk.tire_health ∧
    (packetWithTime pk ldt).lap = pk.lap ∧
    (packetWithTime pk ldt).brake = pk.brake ∧
    (packetWithTime pk ldt).throttle = pk.throttle ∧
    (packetWithTime pk ldt).g_lat = pk.g_lat ∧
    (packetWithTime pk ldt).speed = pk.speed ∧
    (packetWithTime pk ldt).weather = pk.weather := by
  unfold packetWithTime
  split
  · exact ⟨rfl, rfl, rfl, rfl, rfl, rfl, rfl, rfl⟩
  · exact ⟨rfl, rfl, rfl, rfl, rfl, rfl, rfl, rfl⟩

/-- Structural description of one successful tick: tires and the packet's
tire fields come from the sample phase, the packet's lap number is the
post-merge lap counter, the state's lap counter advances by at most one, the
statistics threshold is preserved, new history records clear the threshold,
the emitted weather is the output of `weatherDamp` against the advanced
snapshot and the previously dispatched one, and the coaching tip is the
priority chain evaluated on the packet's own resolved fields. -/
theorem tick_ok_spec (cfg : Config) (st : RaceState) (inp : TickIn) (st' : RaceState) (p : Packet)
    (h : tick cfg st inp = .ok (st', p)) :
    st'.tires = (samplePhase cfg st inp).st.tires ∧
    p.tire_healths = (samplePhase cfg st inp).st.tires ∧
    p.tire_health = (samplePhase cfg st inp).st.tire_health ∧
    p.lap = (samplePhase cfg st inp).st.current_lap ∧
    (st'.current_lap = (samplePhase cfg st inp).st.current_lap ∨
     st'.current_lap = (samplePhase cfg st inp).st.current_lap + 1) ∧
    st'.stats_start_lap = st.stats_start_lap ∧
    (∀ e ∈ st'.lap_duration_records, e ∈ st.lap_duration_records ∨ st.stats_start_lap ≤ e.1) ∧
    (∃ pw, (st'.last_weather_sent, p.weather) =
      weatherDamp st'.weather_snapshot st.last_weather_sent pw) ∧
    (∃ lf ld cl, p.coaching_tip =
      coachingTip p.brake p.throttle p.g_lat p.speed p.tire_health lf ld cl) := by
  obtain ⟨hss, htss, hrec, hhist, hdur, hsbl, hused, hins, hlws, hwidx, hwsnap, hns, hlct, hpct,
    hlts, hsbs, hlee, hlap, hplap, hph, hphs, hh⟩ := samplePhase_spec cfg st inp
  simp only [tick] at h
  obtain ⟨⟨st2, ins2⟩, heq, hfin⟩ := except_map_ok _ _ _ h
  obtain ⟨h2lap, h2tires, h2th, h2ss, h2lws, h2widx, h2wsnap, h2idx, h2rec⟩ :=
    statsBlock_ok _ _ _ _ _ _ _ heq
  have hfst := congrArg Prod.fst hfin
  have hpd := congrArg Prod.snd hfin
  dsimp only at hfst hpd
  refine ⟨?_, ?_, ?_, ?_, ?_, ?_, ?_, ?_, ?_⟩
  · rw [← hfst, tickFinish_st_tires]
    exact h2tires
  · rw [← hpd, tickFinish_p_tire_healths]
    unfold packet1Of
    rw [(packetWithTime_fields _ _).1]
    exact hphs
  · rw [← hpd, tickFinish_p_tire_health]
    unfold packet1Of
    rw [(packetWithTime_fields _ _).2.1]
    exact hph
  · rw [← hpd, tickFinish_p_lap]
    unfold packet1Of
    rw [(packetWithTime_fields _ _).2.2.1]
    exact hplap
  · rw [← hfst]
    rcases tickFinish_st_lap cfg (samplePhase cfg st inp)
        (weatherIdxOf cfg (samplePhase cfg st inp).st)
        (weatherSnapOf cfg (samplePhase cfg st inp).st)
        (geoOf cfg (samplePhase cfg st inp).st inp).1
        (geoOf cfg (samplePhase cfg st inp).st inp).2
        (lapDurThis cfg st inp) (packet1Of cfg st inp)
        (newTopSpeedOf cfg st inp) (sessionBestSpeedOf cfg st inp)
        (lastLapElapsedEmitOf cfg st inp) (samplePhase cfg st inp).st.current_lap
        (st2, ins2) with h5 | h5
    · rw [h5]
      exact .inl h2lap
    · rw [h5]
      right
      rw [h2lap]
  · rw [← hfst, tickFinish_st_stats_start]
    dsimp only
    rw [h2ss, hss]
  · intro e he
    rw [← hfst, tickFinish_st_records] at he
    dsimp only at he
    rw [← hss, ← hrec]
    exact h2rec e he
  · rw [← hfst, ← hpd, tickFinish_st_wsnap, tickFinish_weather]
    dsimp only
    rw [h2lws, hlws]
    exact ⟨_, rfl⟩
  · rw [← hpd, tickFinish_p_tip, tickFinish_p_brake, tickFinish_p_throttle, tickFinish_p_g_lat,
      tickFinish_p_speed, tickFinish_p_tire_health]
    exact ⟨_, _, _, rfl⟩

/-- C1: the round-trip of the results feed into the statistics fails on the
code.  In `cfgGeo` the feed carries 100 s for lap 2 and the only local timing
for lap 2 is the geometric 200 s (the fourth packet's `lap_time_sec`), so the
claim demands `best_lap_seconds = 100` once lap 2 completes; the code instead
leaves it `None`, because line 762-770 read `lap_duration_used` before lines
849-856 assign it for the current lap — the authoritative 100 s is only
picked up at the next completion, tagged lap 3. -/
theorem c1_code_eval :
    (runRace cfgGeo 0 inpsGeo4).map
      (fun r => (r.1.insights.best_lap_seconds, r.2.map fun p => p.lap_time_sec)) =
      .ok (none, [none, none, none, some 200]) ∧
    lookupAnalysis cfgGeo.analysis 2 = some 100 ∧ (100 : ℚ) < 200 := by
  refine ⟨?_, ?_, ?_⟩
  · with_unfolding_all decide
  · with_unfolding_all decide
  · norm_num

/-- C2: the per-tick body can raise.  On the first completed lap that carries
a timed duration (two rows whose lap index steps 1 → 2 with valid
timestamps), line 762 reads the local `lap_duration_used` before its first
assignment at line 854/856, so the loop body raises `UnboundLocalError`
instead of absorbing the input. -/
theorem c2_code_eval : runRace cfgLapData 0 inpsLap2 = .error .unboundLocal := by
  with_unfolding_all decide

/-- C3 counterexample: with two weather rows 0.5 °C apart (all other fields
equal), the first two emitted packets carry different weather snapshots even
though every temperature delta involved is below one degree — the claim that
the weather field changes only on a ≥ 1° delta is false, because the packet
is built from the pre-advance snapshot (line 603) while the damper compares
the post-advance snapshot (lines 633-635, 872-886). -/
theorem c3_counterexample :
    (runRace cfgWx 0 inpsLap2).map (fun r => r.2.map fun p => p.weather) =
      .ok [some wA, some wB] ∧
    wA ≠ wB ∧
    |wB.temp_c - wA.temp_c| < 1 ∧ |wB.track_temp_c - wA.track_temp_c| < 1 := by
  refine ⟨?_, ?_, ?_, ?_⟩
  · with_unfolding_all decide
  · with_unfolding_all decide
  · with_unfolding_all decide
  · with_unfolding_all decide

/-- C3 (amended): the damping holds between the advanced snapshot and the
last dispatched snapshot: whenever both of this tick's temperature deltas are
below one degree, the emitted packet carries exactly the previously
dispatched snapshot and that snapshot stays dispatched.  (Consecutive emitted
packets can still differ without a ≥ 1° delta, per the counterexample, since
the packet is built from the pre-advance snapshot.) -/
theorem c3_theorem (cfg : Config) (st : RaceState) (inp : TickIn) (st' : RaceState) (p : Packet)
    (ws lw : Weather) (h : tick cfg st inp = .ok (st', p))
    (hsnap : st'.weather_snapshot = some ws) (hsent : st.last_weather_sent = some lw)
    (h1 : |ws.temp_c - lw.temp_c| < 1) (h2 : |ws.track_temp_c - lw.track_temp_c| < 1) :
    p.weather = some lw ∧ st'.last_weather_sent = some lw := by
  obtain ⟨-, -, -, -, -, -, -, ⟨pw, hw⟩, -⟩ := tick_ok_spec cfg st inp st' p h
  rw [hsnap, hsent, weatherDamp_small ws lw pw h1 h2, Prod.mk.injEq] at hw
  exact ⟨hw.2, hw.1⟩

/-- C3 witness: one tick of `cfgWx` from a state with `wA` dispatched; the
advanced snapshot is `wB`, 0.5 °C away, and the packet re-emits `wA`. -/
theorem c3_witness :
    (tickPk cfgWx stWx (tIn 10 1000)).weather = some wA ∧
    (tickSt cfgWx stWx (tIn 10 1000)).last_weather_sent = some wA := by
  have h1 : (tick cfgWx stWx (tIn 10 1000)).map (fun x => x.1.weather_snapshot) =
      .ok (some wB) := by
    with_unfolding_all decide
  cases htk : tick cfgWx stWx (tIn 10 1000) with
  | error e =>
    rw [htk] at h1
    exact Except.noConfusion h1
  | ok r =>
    obtain ⟨s, p⟩ := r
    rw [htk] at h1
    simp only [Except.map] at h1
    injection h1 with h1
    have h2 := c3_theorem cfgWx stWx (tIn 10 1000) s p wB wA htk h1 rfl
      (by with_unfolding_all decide) (by with_unfolding_all decide)
    unfold tickPk tickSt
    rw [htk]
    exact h2

/-- C4 counterexample: with default settings lap 2 is not excluded, and a
lap-2 duration does reach the statistics.  In `cfgGeo` the results feed
carries 100 s for lap 2; after the third geofence crossing the bounded
history contains an entry tagged lap 2 and the entry `(3, 100)` — lap 2's
authoritative duration, tagged one lap late — and `best_lap_seconds` is that
lap-2 duration. -/
theorem c4_counterexample :
    (runRace cfgGeo 0 inpsGeo6).map
      (fun r => (r.1.insights.best_lap_seconds, r.1.lap_duration_records)) =
      .ok (some 100, [(2, none), (3, some 100)]) ∧
    lookupAnalysis cfgGeo.analysis 2 = some 100 ∧
    (initState cfgGeo 0).stats_start_lap = 2 := by
  refine ⟨?_, ?_, ?_⟩
  · with_unfolding_all decide
  · with_unfolding_all decide
  · with_unfolding_all decide

/-- C4 (amended): the warm-up exclusion keeps out only laps numbered below 2:
in any session run from the initial state, every entry of the bounded
lap-time record list is tagged with a lap number ≥ 2 (the gate of line 764 is
`current_lap >= stats_start_lap` with `stats_start_lap = max(2, ...)`), and
lap-2 entries can and do occur. -/
theorem c4_theorem (cfg : Config) (t0 : ℚ) (inps : List TickIn) (st : RaceState)
    (ps : List Packet) (h : runRace cfg t0 inps = .ok (st, ps)) :
    ∀ e ∈ st.lap_duration_records, 2 ≤ e.1 := by
  have hinv : ∀ (is : List TickIn) (st0 stf : RaceState) (psf : List Packet),
      runFrom cfg st0 is = .ok (stf, psf) →
      2 ≤ st0.stats_start_lap → (∀ e ∈ st0.lap_duration_records, 2 ≤ e.1) →
      2 ≤ stf.stats_start_lap ∧ ∀ e ∈ stf.lap_duration_records, 2 ≤ e.1 := by
    intro is
    induction is with
    | nil =>
      intro st0 stf psf h0 hs hr
      unfold runFrom at h0
      injection h0 with h0'
      injection h0' with ha hb
      subst ha
      exact ⟨hs, hr⟩
    | cons i is ih =>
      intro st0 stf psf h0 hs hr
      unfold runFrom at h0
      cases htk : tick cfg st0 i with
      | error e =>
        rw [htk] at h0
        exact absurd h0 (by simp)
      | ok r =>
        obtain ⟨st1, p⟩ := r
        rw [htk] at h0
        dsimp only at h0
        cases hrf : runFrom cfg st1 is with
        | error e =>
          rw [hrf] at h0
          exact Except.noConfusion h0
        | ok r2 =>
          obtain ⟨st2f, ps2⟩ := r2
          rw [hrf] at h0
          dsimp only at h0
          injection h0 with h0'
          injection h0' with ha hb
          subst ha
          obtain ⟨-, -, -, -, -, hss', hmem, -, -⟩ := tick_ok_spec cfg st0 i st1 p htk
          refine ih st1 _ _ hrf ?_ ?_
          · rw [hss']
            exact hs
          · intro e he
            rcases hmem e he with hm | hm
            · exact hr e hm
            · exact le_trans hs hm
  have hnil : ∀ e ∈ (initState cfg t0).lap_duration_records, 2 ≤ e.1 := by
    intro e he
    exact absurd he (List.not_mem_nil e)
  exact (hinv inps (initState cfg t0) st ps h (le_max_left 2 _) hnil).2

theorem pfFin_exists (x : PyFloat) (h : pfIsFinite x = true) : ∃ q, x = .fin q := by
  cases x with
  | fin q => exact ⟨q, rfl⟩
  | pinf => exact absurd h (by simp [pfIsFinite])
  | ninf => exact absurd h (by simp [pfIsFinite])
  | nan => exact absurd h (by simp [pfIsFinite])

theorem pfAdd_fin_of (x y : PyFloat) (hx : pfIsFinite x = true) (hy : pfIsFinite y = true) :
    pfIsFinite (pfAdd x y) = true := by
  obtain ⟨a, rfl⟩ := pfFin_exists x hx
  obtain ⟨b, rfl⟩ := pfFin_exists y hy
  rfl

theorem pfMul_fin_of (x y : PyFloat) (hx : pfIsFinite x = true) (hy : pfIsFinite y = true) :
    pfIsFinite (pfMul x y) = true := by
  obtain ⟨a, rfl⟩ := pfFin_exists x hx
  obtain ⟨b, rfl⟩ := pfFin_exists y hy
  rfl

theorem pfNeg_fin_of (x : PyFloat) (hx : pfIsFinite x = true) :
    pfIsFinite (pfNeg x) = true := by
  obtain ⟨a, rfl⟩ := pfFin_exists x hx
  rfl

theorem pfSub_fin_of (x y : PyFloat) (hx : pfIsFinite x = true) (hy : pfIsFinite y = true) :
    pfIsFinite (pfSub x y) = true := by
  obtain ⟨a, rfl⟩ := pfFin_exists x hx
  obtain ⟨b, rfl⟩ := pfFin_exists y hy
  rfl

theorem pfMax_fin_of (x y : PyFloat) (hx : pfIsFinite x = true) (hy : pfIsFinite y = true) :
    pfIsFinite (pfMax x y) = true := by
  unfold pfMax
  split
  · exact hy
  · exact hx

theorem pfMin_fin_of (x y : PyFloat) (hx : pfIsFinite x = true) (hy : pfIsFinite y = true) :
    pfIsFinite (pfMin x y) = true := by
  unfold pfMin
  split
  · exact hy
  · exact hx

theorem pfAbs_fin_of (x : PyFloat) (hx : pfIsFinite x = true) :
    pfIsFinite (pfAbs x) = true := by
  obtain ⟨a, rfl⟩ := pfFin_exists x hx
  rfl

theorem pfRound2_fin_of (x : PyFloat) (hx : pfIsFinite x = true) :
    pfIsFinite (pfRound2 x) = true := by
  obtain ⟨a, rfl⟩ := pfFin_exists x hx
  rfl

theorem wheelF_fin_of (t c : PyFloat) (ht : pfIsFinite t = true) (hc : pfIsFinite c = true) :
    pfIsFinite (wheelF t c) = true :=
  pfMax_fin_of _ _ rfl (pfSub_fin_of _ _ ht hc)

theorem ite_fin_of (c : Prop) [Decidable c] (x y : PyFloat) (hx : pfIsFinite x = true)
    (hy : pfIsFinite y = true) : pfIsFinite (if c then x else y) = true := by
  split
  · exact hx
  · exact hy

theorem tfl_ite (c : Prop) [Decidable c] (r1 r2 : TireSetF) (h1 : pfIsFinite r1.fl = true)
    (h2 : pfIsFinite r2.fl = true) : pfIsFinite ((if c then r1 else r2).fl) = true := by
  split
  · exact h1
  · exact h2

theorem tfr_ite (c : Prop) [Decidable c] (r1 r2 : TireSetF) (h1 : pfIsFinite r1.fr = true)
    (h2 : pfIsFinite r2.fr = true) : pfIsFinite ((if c then r1 else r2).fr) = true := by
  split
  · exact h1
  · exact h2

theorem trl_ite (c : Prop) [Decidable c] (r1 r2 : TireSetF) (h1 : pfIsFinite r1.rl = true)
    (h2 : pfIsFinite r2.rl = true) : pfIsFinite ((if c then r1 else r2).rl) = true := by
  split
  · exact h1
  · exact h2

theorem trr_ite (c : Prop) [Decidable c] (r1 r2 : TireSetF) (h1 : pfIsFinite r1.rr = true)
    (h2 : pfIsFinite r2.rr = true) : pfIsFinite ((if c then r1 else r2).rr) = true := by
  split
  · exact h1
  · exact h2

theorem safeFloat_fin_of (v : PyVal) (d : ℚ) (h : noInfVal v = true) :
    pfIsFinite (safeFloat v d) = true := by
  cases v with
  | num f =>
    cases f with
    | fin q => rfl
    | pinf => exact absurd h (by simp [noInfVal])
    | ninf => exact absurd h (by simp [noInfVal])
    | nan => rfl
  | missing => rfl

/-- C5 counterexample: `safe_float` filters only NaN, so an infinite raw
value propagates: a row whose speed cell is `+inf` produces a packet whose
speed field is `+inf` — not a finite number. -/
theorem c5_counterexample :
    (normalizeTick normInit sInfSpeed).2.speed = .pinf ∧
    pfIsFinite PyFloat.pinf = false := by
  constructor
  · with_unfolding_all decide
  · rfl

set_option maxHeartbeats 3000000 in
/-- C5 (amended): every numeric field of the packet is a defaulted number
and never NaN or absent; finiteness holds for every input sample that
carries no infinite raw value (fields may be finite, NaN, or missing) from
any finite carried-over state — the counterexample shows an infinite raw
value does leak through `safe_float`. -/
theorem c5_theorem (st : NormState) (s : SampleF) (hst : normStateFinite st = true)
    (hs : sampleNoInf s = true) :
    packetFFinite (normalizeTick st s).2 = true ∧
    normStateFinite (normalizeTick st s).1 = true := by
  unfold normStateFinite at hst
  simp only [Bool.and_eq_true] at hst
  obtain ⟨⟨⟨⟨⟨hls, hlr⟩, hfl⟩, hfr⟩, hrl⟩, hrr⟩ := hst
  unfold sampleNoInf at hs
  simp only [Bool.and_eq_true] at hs
  obtain ⟨⟨⟨⟨⟨⟨⟨⟨⟨⟨hsp, hrpm⟩, hbd⟩, hpf⟩, hpr⟩, hax⟩, hay⟩, hg⟩, hth⟩, hla⟩, hlo⟩ := hs
  constructor <;>
  · simp only [packetFFinite, normStateFinite, normalizeTick]
    cases hbdv : s.brakeDirect with
    | num f =>
      rw [hbdv] at hbd
      cases f with
      | fin q =>
        simp only [Bool.and_eq_true]
        repeat' apply And.intro
        all_goals
          repeat
            first
              | assumption
              | rfl
              | apply ite_fin_of
              | apply pfAdd_fin_of
              | apply pfMul_fin_of
              | apply pfSub_fin_of
              | apply pfNeg_fin_of
              | apply pfMax_fin_of
              | apply pfMin_fin_of
              | apply pfAbs_fin_of
              | apply pfRound2_fin_of
              | apply wheelF_fin_of
              | apply tfl_ite
              | apply tfr_ite
              | apply trl_ite
              | apply trr_ite
              | apply safeFloat_fin_of
              | dsimp only
      | pinf => exact Bool.noConfusion hbd
      | ninf => exact Bool.noConfusion hbd
      | nan =>
        rw [if_pos rfl]
        simp only [Bool.and_eq_true]
        repeat' apply And.intro
        all_goals
          repeat
            first
              | assumption
              | rfl
              | apply ite_fin_of
              | apply pfAdd_fin_of
              | apply pfMul_fin_of
              | apply pfSub_fin_of
              | apply pfNeg_fin_of
              | apply pfMax_fin_of
              | apply pfMin_fin_of
              | apply pfAbs_fin_of
              | apply pfRound2_fin_of
              | apply wheelF_fin_of
              | apply tfl_ite
              | apply tfr_ite
              | apply trl_ite
              | apply trr_ite
              | apply safeFloat_fin_of
              | dsimp only
    | missing =>
      simp only [Bool.and_eq_true]
      repeat' apply And.intro
      all_goals
        repeat
          first
            | assumption
            | rfl
            | apply ite_fin_of
            | apply pfAdd_fin_of
            | apply pfMul_fin_of
            | apply pfSub_fin_of
            | apply pfNeg_fin_of
            | apply pfMax_fin_of
            | apply pfMin_fin_of
            | apply pfAbs_fin_of
            | apply pfRound2_fin_of
            | apply wheelF_fin_of
            | apply tfl_ite
            | apply tfr_ite
            | apply trl_ite
            | apply trr_ite
            | apply safeFloat_fin_of
            | dsimp only

/-- C5 witness: a fully finite row from the fresh normalizer state. -/
theorem c5_witness :
    packetFFinite (normalizeTick normInit sFiniteF).2 = true ∧
    normStateFinite (normalizeTick normInit sFiniteF).1 = true :=
  c5_theorem normInit sFiniteF (by with_unfolding_all decide) (by with_unfolding_all decide)

/-- C6 counterexample: tire wear is not confined to [0,100] for every input:
a telemetry row with brake pressure -100 (the code never clamps negative
brake sources) makes `brake_load` negative, so line 567 adds 0.25 to every
wheel: after one tick the front-left wheel reads 100.25 > 100, an increase
over its previous value 100. -/
theorem c6_counterexample :
    (tick cfgNegBrake (initState cfgNegBrake 0) (tIn 10 1000)).map (fun r => r.1.tires.fl) =
      .ok 100.25 ∧
    (initState cfgNegBrake 0).tires.fl = 100 ∧ ¬(100.25 : ℚ) ≤ 100 := by
  refine ⟨?_, ?_, ?_⟩
  · with_unfolding_all decide
  · with_unfolding_all decide
  · norm_num

/-- C6 (amended): provided every brake source in the dataset is nonnegative
(the physical range; the code does not clamp negatives), each wheel stays in
[0,100] and is non-increasing across the tick, the wear step being exactly
`tireStep` (corner load `|g_lat|·0.02` on the loaded side, 0.9 of it on the
same-side rear, `brake·0.0025` on all four, clamped at 0), and the emitted
aggregate equals the mean of the four wheels rounded to two decimals. -/
theorem c6_theorem (cfg : Config) (st : RaceState) (inp : TickIn) (st' : RaceState) (p : Packet)
    (h : tick cfg st inp = .ok (st', p)) (hb : cfg.telemetry.all brakeOK = true)
    (h0 : TireNonneg st.tires) (h100 : TireLe100 st.tires) :
    TireNonneg st'.tires ∧ TireLe st'.tires st.tires ∧ TireLe100 st'.tires ∧
    p.tire_healths = st'.tires ∧ p.tire_health = round2 (tireMean st'.tires) := by
  obtain ⟨htires, hphs', hph', -, -, -, -, -, -⟩ := tick_ok_spec cfg st inp st' p h
  obtain ⟨-, -, -, -, -, -, -, -, -, -, -, -, -, -, -, -, -, -, -, hph, hphs, hh⟩ :=
    samplePhase_spec cfg st inp
  obtain ⟨b, a, hbnn, htstep⟩ := samplePhase_tires cfg st inp hb
  have hspec := tireStep_spec st.tires b a hbnn h0
  refine ⟨?_, ?_, ?_, ?_, ?_⟩
  · rw [htires, htstep]
    exact hspec.1
  · rw [htires, htstep]
    exact hspec.2
  · rw [htires, htstep]
    obtain ⟨l1, l2, l3, l4⟩ := hspec.2
    exact ⟨le_trans l1 h100.1, le_trans l2 h100.2.1, le_trans l3 h100.2.2.1,
      le_trans l4 h100.2.2.2⟩
  · rw [hphs', htires]
  · rw [hph', hh, htires]

/-- C6 witness: one tick of `cfgBenign` (brake 50, lateral g 1) from fresh
tires. -/
theorem c6_witness :
    TireNonneg (tickSt cfgBenign (initState cfgBenign 0) (tIn 10 1000)).tires ∧
    TireLe (tickSt cfgBenign (initState cfgBenign 0) (tIn 10 1000)).tires
      (initState cfgBenign 0).tires ∧
    TireLe100 (tickSt cfgBenign (initState cfgBenign 0) (tIn 10 1000)).tires ∧
    (tickPk cfgBenign (initState cfgBenign 0) (tIn 10 1000)).tire_healths =
      (tickSt cfgBenign (initState cfgBenign 0) (tIn 10 1000)).tires ∧
    (tickPk cfgBenign (initState cfgBenign 0) (tIn 10 1000)).tire_health =
      round2 (tireMean (tickSt cfgBenign (initState cfgBenign 0) (tIn 10 1000)).tires) := by
  have h1 : (tick cfgBenign (initState cfgBenign 0) (tIn 10 1000)).map (fun _ => true) =
      .ok true := by
    with_unfolding_all decide
  cases htk : tick cfgBenign (initState cfgBenign 0) (tIn 10 1000) with
  | error e =>
    rw [htk] at h1
    exact Except.noConfusion h1
  | ok r =>
    obtain ⟨s, p⟩ := r
    have h2 := c6_theorem cfgBenign (initState cfgBenign 0) (tIn 10 1000) s p htk
      (by with_unfolding_all decide)
      (by unfold TireNonneg; with_unfolding_all decide)
      (by unfold TireLe100; with_unfolding_all decide)
    unfold tickSt tickPk
    rw [htk]
    exact h2

/-- C7: confirmed.  On distance sequence 30, 10, 10, 30 (times t1 < t2 < t3 <
t4, wall clock past the 5-second debounce at the first entry, at least 5 s
between the two sub-15 m ticks) the geofence detector crosses exactly once,
at the first tick below 15 m; the second sub-15 m tick is suppressed because
the detector is still near the start, which it leaves only above 25 m. -/
theorem c7_theorem (t1 t2 t3 t4 : ℚ) (h5 : 5 < t2) (hgap : 5 ≤ t3 - t2) :
    (geoStep ⟨false, 0, none⟩ 30 t1).2 = false ∧
    (geoStep (geoStep ⟨false, 0, none⟩ 30 t1).1 10 t2).2 = true ∧
    (geoStep (geoStep (geoStep ⟨false, 0, none⟩ 30 t1).1 10 t2).1 10 t3).2 = false ∧
    (geoStep (geoStep (geoStep ⟨false, 0, none⟩ 30 t1).1 10 t2).1 10 t3).1.near_start = true ∧
    (geoStep (geoStep (geoStep (geoStep ⟨false, 0, none⟩ 30 t1).1 10 t2).1 10 t3).1
        30 t4).2 = false ∧
    (geoStep (geoStep (geoStep (geoStep ⟨false, 0, none⟩ 30 t1).1 10 t2).1 10 t3).1
        30 t4).1.near_start = false := by
  have e1 : geoStep ⟨false, 0, none⟩ 30 t1 = (⟨false, 0, none⟩, false) := by
    unfold geoStep
    split
    · rename_i hc
      rcases hc with ⟨hc, -⟩
      norm_num at hc
    · split
      · rfl
      · rename_i hc
        exact absurd (by norm_num) hc
  have e2 : geoStep ⟨false, 0, none⟩ 10 t2 = (⟨true, t2, none⟩, true) := by
    unfold geoStep
    split
    · norm_num
    · rename_i hc
      refine absurd ⟨by norm_num, rfl, ?_⟩ hc
      dsimp only
      linarith
  have e3 : geoStep ⟨true, t2, none⟩ 10 t3 = (⟨true, t2, none⟩, false) := by
    unfold geoStep
    split
    · rename_i hc
      rcases hc with ⟨-, hc, -⟩
      simp at hc
    · split
      · rename_i hc
        norm_num at hc
      · rfl
  have e4 : geoStep ⟨true, t2, none⟩ 30 t4 = (⟨false, t2, none⟩, false) := by
    unfold geoStep
    split
    · rename_i hc
      rcases hc with ⟨hc, -⟩
      norm_num at hc
    · split
      · rfl
      · rename_i hc
        exact absurd (by norm_num) hc
  simp [e1, e2, e3, e4]

/-- C7 witness: the scenario at times 1, 10, 20, 100. -/
theorem c7_witness :
    (geoStep ⟨false, 0, none⟩ 30 1).2 = false ∧
    (geoStep (geoStep ⟨false, 0, none⟩ 30 1).1 10 10).2 = true ∧
    (geoStep (geoStep (geoStep ⟨false, 0, none⟩ 30 1).1 10 10).1 10 20).2 = false ∧
    (geoStep (geoStep (geoStep ⟨false, 0, none⟩ 30 1).1 10 10).1 10 20).1.near_start = true ∧
    (geoStep (geoStep (geoStep (geoStep ⟨false, 0, none⟩ 30 1).1 10 10).1 10 20).1
        30 100).2 = false ∧
    (geoStep (geoStep (geoStep (geoStep ⟨false, 0, none⟩ 30 1).1 10 10).1 10 20).1
        30 100).1.near_start = false :=
  c7_theorem 1 10 20 100 (by norm_num) (by norm_num)

/-- C8: confirmed.  On every successful tick the emitted packet's lap number
sits between the previous state's lap counter and the new state's lap
counter, so the lap number is non-decreasing across ticks of a session
(`current_lap` only moves by `max` with the sample's lap index, line 515, or
by increment, lines 861/868). -/
theorem c8_theorem (cfg : Config) (st : RaceState) (inp : TickIn) (st' : RaceState) (p : Packet)
    (h : tick cfg st inp = .ok (st', p)) :
    st.current_lap ≤ p.lap ∧ p.lap ≤ st'.current_lap := by
  obtain ⟨-, -, -, hplap, hcl, -, -, -, -⟩ := tick_ok_spec cfg st inp st' p h
  obtain ⟨-, -, -, -, -, -, -, -, -, -, -, -, -, -, -, -, -, hlap, -, -, -, -⟩ :=
    samplePhase_spec cfg st inp
  constructor
  · rw [hplap]
    exact hlap
  · rcases hcl with h1 | h1
    · rw [hplap, h1]
    · rw [hplap, h1]
      omega

/-- C8 witness: the first tick of the `cfgGeo` session. -/
theorem c8_witness :
    (initState cfgGeo 0).current_lap ≤ (tickPk cfgGeo (initState cfgGeo 0) (tIn 10 30)).lap ∧
    (tickPk cfgGeo (initState cfgGeo 0) (tIn 10 30)).lap ≤
      (tickSt cfgGeo (initState cfgGeo 0) (tIn 10 30)).current_lap := by
  have h1 : (tick cfgGeo (initState cfgGeo 0) (tIn 10 30)).map (fun _ => true) = .ok true := by
    with_unfolding_all decide
  cases htk : tick cfgGeo (initState cfgGeo 0) (tIn 10 30) with
  | error e =>
    rw [htk] at h1
    exact Except.noConfusion h1
  | ok r =>
    obtain ⟨s, p⟩ := r
    have h2 := c8_theorem cfgGeo (initState cfgGeo 0) (tIn 10 30) s p htk
    unfold tickSt tickPk
    rw [htk]
    exact h2

/-- C9: confirmed.  On every successful tick at most one coaching tip is
attached, chosen by the strict first-match chain of lines 832-841: blended
brake-and-throttle (brake > 50 and throttle > 30), then mid-corner speed
carry (|lateral g| > 1.2 and speed < 80), then tire health (< 85), then
lap-finished-without-a-timed-duration; an earlier match excludes every later
tip. -/
theorem c9_theorem (cfg : Config) (st : RaceState) (inp : TickIn) (st' : RaceState) (p : Packet)
    (h : tick cfg st inp = .ok (st', p)) :
    ((50 < p.brake ∧ 30 < p.throttle) → p.coaching_tip = some .blend) ∧
    (¬(50 < p.brake ∧ 30 < p.throttle) → (1.2 < |p.g_lat| ∧ p.speed < 80) →
      p.coaching_tip = some .corner) ∧
    (¬(50 < p.brake ∧ 30 < p.throttle) → ¬(1.2 < |p.g_lat| ∧ p.speed < 80) →
      p.tire_health < 85 → p.coaching_tip = some .tire) ∧
    (¬(50 < p.brake ∧ 30 < p.throttle) → ¬(1.2 < |p.g_lat| ∧ p.speed < 80) →
      ¬(p.tire_health < 85) →
      p.coaching_tip = none ∨ ∃ l, p.coaching_tip = some (.lapDone l)) := by
  obtain ⟨-, -, -, -, -, -, -, -, lf, ld, cl, htip⟩ := tick_ok_spec cfg st inp st' p h
  rw [htip]
  unfold coachingTip
  refine ⟨?_, ?_, ?_, ?_⟩
  · intro hc
    rw [if_pos hc]
  · intro hn hc
    rw [if_neg hn, if_pos hc]
  · intro hn1 hn2 hc
    rw [if_neg hn1, if_neg hn2, if_pos hc]
  · intro hn1 hn2 hn3
    rw [if_neg hn1, if_neg hn2, if_neg hn3]
    split
    · exact .inr ⟨_, rfl⟩
    · exact .inl rfl

/-- C9 witness: a tick of `cfgTip` (brake 60, throttle 40) yields the blended
tip. -/
theorem c9_witness :
    (tickPk cfgTip (initState cfgTip 0) (tIn 10 1000)).coaching_tip = some .blend := by
  have h1 : (tick cfgTip (initState cfgTip 0) (tIn 10 1000)).map (fun _ => true) = .ok true := by
    with_unfolding_all decide
  cases htk : tick cfgTip (initState cfgTip 0) (tIn 10 1000) with
  | error e =>
    rw [htk] at h1
    exact Except.noConfusion h1
  | ok r =>
    obtain ⟨s, p⟩ := r
    have hbr : (50 : ℚ) < p.brake ∧ (30 : ℚ) < p.throttle := by
      have h3 : (tick cfgTip (initState cfgTip 0) (tIn 10 1000)).map
          (fun x => (x.2.brake, x.2.throttle)) = .ok (60, 40) := by
        with_unfolding_all decide
      rw [htk] at h3
      simp only [Except.map] at h3
      injection h3 with h3
      rw [Prod.mk.injEq] at h3
      rw [h3.1, h3.2]
      norm_num
    have h2 := (c9_theorem cfgTip (initState cfgTip 0) (tIn 10 1000) s p htk).1 hbr
    unfold tickPk
    rw [htk]
    exact h2

/-- C10: confirmed.  `get_current_sector` evaluates the boxes in the fixed
order S1, S2, S3: every position with lon < -86.6190 and 33.5285 ≤ lat <
33.5300 lies in both the S1 box and the S3 box and is classified S1; and a
latitude or longitude that is 0 or None short-circuits to no sector (Python
truthiness, line 138), bypassing boxes and the 300 m fallback — for every
fallback distance function. -/
theorem c10_theorem (dist : ℚ → ℚ → ℚ → ℚ → ℚ) (lat lon : ℚ)
    (hlon : lon < -86.6190) (hlat1 : 33.5285 ≤ lat) (hlat2 : lat < 33.5300) :
    ((lon < -86.6190 ∧ 33.5285 ≤ lat ∧ lat ≤ 33.5330) ∧
     (lat < 33.5300 ∧ lon < -86.6180)) ∧
    getCurrentSector dist (some lat) (some lon) = some .S1 ∧
    getCurrentSector dist none (some lon) = none ∧
    getCurrentSector dist (some lat) none = none ∧
    getCurrentSector dist (some 0) (some lon) = none ∧
    getCurrentSector dist (some lat) (some 0) = none := by
  have hS1 : lon < -86.6190 ∧ 33.5285 ≤ lat ∧ lat ≤ 33.5330 := ⟨hlon, hlat1, by linarith⟩
  have hS3 : lat < 33.5300 ∧ lon < -86.6180 := ⟨hlat2, by linarith⟩
  have hlatt : truthyQ (some lat) = true := by
    simp only [truthyQ, decide_eq_true_eq]
    intro h0
    rw [h0] at hlat1
    norm_num at hlat1
  have hlont : truthyQ (some lon) = true := by
    simp only [truthyQ, decide_eq_true_eq]
    intro h0
    rw [h0] at hlon
    norm_num at hlon
  refine ⟨⟨hS1, hS3⟩, ?_, ?_, ?_, ?_, ?_⟩
  · unfold getCurrentSector
    rw [if_neg, if_pos]
    · exact hS1
    · rw [hlatt, hlont]
      simp
  · simp [getCurrentSector, truthyQ]
  · simp [getCurrentSector, truthyQ]
  · simp [getCurrentSector, truthyQ]
  · simp [getCurrentSector, truthyQ]

/-- C10 witness: the overlap point (33.529, -86.62), with a constant-zero
fallback distance. -/
theorem c10_witness :
    (((-86.62 : ℚ) < -86.6190 ∧ (33.5285 : ℚ) ≤ 33.529 ∧ (33.529 : ℚ) ≤ 33.5330) ∧
     ((33.529 : ℚ) < 33.5300 ∧ (-86.62 : ℚ) < -86.6180)) ∧
    getCurrentSector (fun _ _ _ _ => 0) (some 33.529) (some (-86.62)) = some .S1 ∧
    getCurrentSector (fun _ _ _ _ => 0) none (some (-86.62)) = none ∧
    getCurrentSector (fun _ _ _ _ => 0) (some 33.529) none = none ∧
    getCurrentSector (fun _ _ _ _ => 0) (some 0) (some (-86.62)) = none ∧
    getCurrentSector (fun _ _ _ _ => 0) (some 33.529) (some 0) = none :=
  c10_theorem (fun _ _ _ _ => 0) 33.529 (-86.62) (by norm_num) (by norm_num) (by norm_num)

/-- C4 witness: the first record of the `cfgGeo` session after six ticks is
tagged lap 2, clearing the amended bound. -/
theorem c4_witness :
    2 ≤ (((runSt cfgGeo 0 inpsGeo6).lap_duration_records.headD (0, none)).1) := by
  have h1 : (runRace cfgGeo 0 inpsGeo6).map (fun r => r.1.lap_duration_records) =
      .ok [(2, none), (3, some 100)] := by
    with_unfolding_all decide
  cases htk : runRace cfgGeo 0 inpsGeo6 with
  | error e =>
    rw [htk] at h1
    exact Except.noConfusion h1
  | ok r =>
    obtain ⟨s, ps⟩ := r
    rw [htk] at h1
    simp only [Except.map] at h1
    injection h1 with h1
    have h2 := c4_theorem cfgGeo 0 inpsGeo6 s ps htk (s.lap_duration_records.headD (0, none))
      (by rw [h1]; with_unfolding_all decide)
    unfold runSt
    rw [htk]
    exact h2

end GR
